import Mathlib

/-!
# Vigilante: map lifecycle, dynamic-actor registry and chest actor

A shallow embedding of

* `src/map/GameMap.h`: `GameMap::showDynamicActor`, `GameMap::removeDynamicActor`;
* `src/map/object/Chest.cc`: `Chest::showOnMap`, `Chest::defineBody`;
* `Classes/map/GameMapManager.cc`: `GameMapManager::load`, `spawnPlayer`,
  `createRectangles`, `createPolylines`;
* `Classes/input/InputManager.cc`: the pressed-key set and the hotkey table;
* `src/map/object/Chest.cc`: `Chest::onInteract`;
* `src/map/GameMapManager.h`: `GameMapManager::loadGameMap`, whose definition is not in the
  sources and is described from the specification.

Conventions.

* C++ `float` is an arbitrary type `F` carrying the arithmetic the code uses
  (`+`, `-`, `/`, conversion from integer literals).  No property below depends
  on how that arithmetic rounds.
* An object is identified by its address (`ActorPtr`); a possibly-null pointer
  result is an `Option`, `none` being `nullptr`.
* Dereferencing a null pointer or indexing an empty vector does not return; the
  functions that can do so return `Option` (registry) or `Run` (map loading).
-/

set_option autoImplicit false

namespace vigilante

/-! ## Dynamic Actor Registry (`src/map/GameMap.h`) -/

/-- Address of a `DynamicActor` object.  `std::unordered_set<std::shared_ptr<DynamicActor>>`
hashes and compares its elements by the stored pointer, so the registry is a finite set of
addresses. -/
abbrev ActorPtr := Nat

/-- The two virtual methods of `DynamicActor` called by the registry, as functions on the
state `W` they act on (the actors' own fields, the physics world, the scene graph).  The
value returned by `removeFromMap` is discarded at its only call site. -/
structure DynamicActor (F W : Type) where
  showOnMap : ActorPtr → F → F → W → Bool × W
  removeFromMap : ActorPtr → W → W

/-- A virtual call issued by the registry, with its receiver and arguments. -/
inductive VCall (F : Type) where
  | showOnMap (actor : ActorPtr) (x y : F)
  | removeFromMap (actor : ActorPtr)
  deriving DecidableEq, Repr

/-- The part of `GameMap` that `showDynamicActor` and `removeDynamicActor` read and write:
the registry `_dynamicActors`, the state `stage` reached through the actors' virtual
methods, and the sequence `vcalls` of virtual calls made so far.  The virtual methods act on
`stage` only, not on the registry.  The line `VGLOG` writes on a rejection goes to the
logging sink and is not part of this state. -/
structure GameMap (F W : Type) where
  _dynamicActors : Finset ActorPtr
  stage : W
  vcalls : List (VCall F)

/-- Whether `dynamic_cast<ReturnType*>` succeeds, for the default `ReturnType = DynamicActor`:
every actor is a `DynamicActor`. -/
def castDynamicActor : ActorPtr → Bool := fun _ => true

variable {F W : Type}

/-- `GameMap::showDynamicActor<ReturnType>(actor, x, y)`; `cast a` tells whether
`dynamic_cast<ReturnType*>` succeeds on the object at `a`. -/
def GameMap.showDynamicActor (vt : DynamicActor F W) (cast : ActorPtr → Bool)
    (self : GameMap F W) (actor : ActorPtr) (x y : F) : Option ActorPtr × GameMap F W :=
  let shownActor : Option ActorPtr := if cast actor then some actor else none
  if actor ∈ self._dynamicActors then
    (none, self)
  else
    let shown := vt.showOnMap actor x y self.stage
    (shownActor,
      { _dynamicActors := insert actor self._dynamicActors
        stage := shown.2
        vcalls := self.vcalls ++ [VCall.showOnMap actor x y] })

/-- `GameMap::removeDynamicActor<ReturnType>(actor)`.  The outer `none` is the null
dereference `removedActor->removeFromMap()` reached when the actor is registered but the
cast to `ReturnType` fails. -/
def GameMap.removeDynamicActor (vt : DynamicActor F W) (cast : ActorPtr → Bool)
    (self : GameMap F W) (actor : ActorPtr) : Option (Option ActorPtr × GameMap F W) :=
  if actor ∈ self._dynamicActors then
    if cast actor then
      some (some actor,
        { _dynamicActors := self._dynamicActors.erase actor
          stage := vt.removeFromMap actor self.stage
          vcalls := self.vcalls ++ [VCall.removeFromMap actor] })
    else
      none
  else
    some (none, self)

/-- A minimal actor implementation following the `DynamicActor` lifecycle: the state is the
list of actors whose shown flag is set. -/
def flagActor : DynamicActor Int (List ActorPtr) where
  showOnMap := fun a _ _ w => if a ∈ w then (false, w) else (true, a :: w)
  removeFromMap := fun a w => w.erase a

/-- Registry `{1, 2}` over `flagActor`, both actors shown. -/
def demoMap : GameMap Int (List ActorPtr) :=
  { _dynamicActors := {1, 2}, stage := [2, 1], vcalls := [] }

/-! ## Physics world and rigid-body builder -/

/-- Box2D body types. -/
inductive b2BodyType where
  | b2_staticBody
  | b2_kinematicBody
  | b2_dynamicBody
  deriving DecidableEq, Repr

/-- Target of a fixture's user-data pointer: the actor object itself (`setUserData(this)`) or
its `Interactable` base (`setUserData(static_cast<Interactable*>(this))`). -/
inductive UserData where
  | actor (a : ActorPtr)
  | interactable (a : ActorPtr)
  deriving DecidableEq, Repr

/-- Geometry handed to the builder, with the scale it was given. -/
inductive b2Shape (F : Type) where
  | rectangle (hx hy ppm : F)
  | polyline (vertices : List (F × F)) (count : Nat) (ppm : F)
  deriving DecidableEq, Repr

/-- A fixture descriptor.  A field that no builder method has set is `none` (the physics
library's default applies). -/
structure b2Fixture (F : Type) where
  shape : b2Shape F
  categoryBits : Option Nat
  maskBits : Option Nat
  isSensor : Option Bool
  friction : Option F
  userData : Option UserData
  deriving DecidableEq, Repr

/-- A body of the physics world: type, position as given to the builder `(x, y, ppm)`, and
the fixtures attached so far. -/
structure b2Body (F : Type) where
  type : b2BodyType
  position : Option (F × F × F)
  fixtures : List (b2Fixture F)
  deriving DecidableEq, Repr

/-- The physics world: its bodies in creation order.  A body handle (`b2Body*`) is the index
of the body in this list. -/
structure b2World (F : Type) where
  bodies : List (b2Body F)
  deriving DecidableEq, Repr

/-- Modelled from the spec: `util/box2d/b2BodyBuilder.h` is missing from the sources.  By
the spec (4.1), `type` and `position` configure pending body parameters, `buildBody` commits
the body to the world and returns its handle; a fixture method starts a pending fixture on
the previously built body, `categoryBits`, `maskBits`, `setSensor`, `friction`,
`setUserData` configure it and `buildFixture` commits it.  The builder holds the world it
was constructed on; the world after the calls is read back from it. -/
structure b2BodyBuilder (F : Type) where
  world : b2World F
  bodyType : b2BodyType
  bodyPosition : Option (F × F × F)
  body : Option Nat
  fixture : Option (b2Fixture F)

namespace b2BodyBuilder

/-- Modelled from the spec: constructor `b2BodyBuilder(world)`; nothing is pending. -/
def new (world : b2World F) : b2BodyBuilder F :=
  { world := world, bodyType := b2BodyType.b2_staticBody, bodyPosition := none,
    body := none, fixture := none }

/-- Modelled from the spec: `type(bodyType)` sets the pending body type. -/
def type (b : b2BodyBuilder F) (t : b2BodyType) : b2BodyBuilder F :=
  { b with bodyType := t }

/-- Modelled from the spec: `position(x, y, scale)` sets the pending body position. -/
def position (b : b2BodyBuilder F) (x y ppm : F) : b2BodyBuilder F :=
  { b with bodyPosition := some (x, y, ppm) }

/-- Modelled from the spec: `buildBody()` commits the pending body, without fixtures, to the
world; the builder remembers its handle. -/
def buildBody (b : b2BodyBuilder F) : b2BodyBuilder F :=
  { b with
    world := { bodies := b.world.bodies ++
      [{ type := b.bodyType, position := b.bodyPosition, fixtures := [] }] }
    body := some b.world.bodies.length }

/-- Modelled from the spec: `newRectangleFixture(hx, hy, scale)` starts a pending fixture. -/
def newRectangleFixture (b : b2BodyBuilder F) (hx hy ppm : F) : b2BodyBuilder F :=
  { b with fixture := some (
      { shape := b2Shape.rectangle hx hy ppm, categoryBits := none, maskBits := none,
        isSensor := none, friction := none, userData := none } : b2Fixture F) }

/-- Modelled from the spec: `newPolylineFixture(vertices, count, scale)` starts a pending
fixture. -/
def newPolylineFixture (b : b2BodyBuilder F) (vertices : List (F × F)) (count : Nat)
    (ppm : F) : b2BodyBuilder F :=
  { b with fixture := some (
      { shape := b2Shape.polyline vertices count ppm, categoryBits := none, maskBits := none,
        isSensor := none, friction := none, userData := none } : b2Fixture F) }

/-- Modelled from the spec: `categoryBits(bits)` configures the pending fixture. -/
def categoryBits (b : b2BodyBuilder F) (bits : Nat) : b2BodyBuilder F :=
  { b with fixture := b.fixture.map fun f => { f with categoryBits := some bits } }

/-- Modelled from the spec: `maskBits(bits)` configures the pending fixture. -/
def maskBits (b : b2BodyBuilder F) (bits : Nat) : b2BodyBuilder F :=
  { b with fixture := b.fixture.map fun f => { f with maskBits := some bits } }

/-- Modelled from the spec: `setSensor(flag)` configures the pending fixture. -/
def setSensor (b : b2BodyBuilder F) (flag : Bool) : b2BodyBuilder F :=
  { b with fixture := b.fixture.map fun f => { f with isSensor := some flag } }

/-- Modelled from the spec: `friction(value)` configures the pending fixture. -/
def friction (b : b2BodyBuilder F) (value : F) : b2BodyBuilder F :=
  { b with fixture := b.fixture.map fun f => { f with friction := some value } }

/-- Modelled from the spec: `setUserData(pointer)` configures the pending fixture. -/
def setUserData (b : b2BodyBuilder F) (u : UserData) : b2BodyBuilder F :=
  { b with fixture := b.fixture.map fun f => { f with userData := some u } }

/-- Modelled from the spec: `buildFixture()` commits the pending fixture to the body built
last.  Without a built body or a pending fixture nothing is committed. -/
def buildFixture (b : b2BodyBuilder F) : b2BodyBuilder F :=
  match b.body, b.fixture with
  | some i, some f =>
    match b.world.bodies[i]? with
    | some bd =>
      { b with world :=
          { bodies := b.world.bodies.set i { bd with fixtures := bd.fixtures ++ [f] } } }
    | none => b
  | _, _ => b

end b2BodyBuilder

/-! ## Chest (`src/map/object/Chest.cc`) -/

/-- Values of `Constants.h` and `CategoryBits.h`, which are missing from the sources: the
pixels-per-metre scale, the collision category bits (16-bit patterns) and the z-order
`graphical_layers::kChest`. -/
structure Constants (F : Type) where
  kPpm : F
  kGround : Nat
  kPlatform : Nat
  kWall : Nat
  kPortal : Nat
  kCliffMarker : Nat
  kFeet : Nat
  kInteractable : Nat
  kChest : Int

/-- A `cocos2d::Sprite` created from a texture file; `aliased` records
`getTexture()->setAliasTexParameters()`.  `Sprite::create` is taken to succeed. -/
structure Sprite where
  file : String
  aliased : Bool
  deriving DecidableEq, Repr

/-- Fields of a `Chest` object: `_isShownOnMap`, `_body`, `_bodySprite` inherited from
`DynamicActor`, and the chest's own `_hintBubbleFxSprite`, `_itemJsons`, `_isOpened`. -/
structure Chest where
  _isShownOnMap : Bool
  _body : Option Nat
  _bodySprite : Option Sprite
  _hintBubbleFxSprite : Option Sprite
  _itemJsons : List String
  _isOpened : Bool
  deriving DecidableEq, Repr

/-- What a chest's methods act on: the physics world and the layer of the map manager
singleton (children with their z-order), and the chest objects by address. -/
structure Stage (F : Type) where
  world : b2World F
  layer : List (Sprite × Int)
  chests : ActorPtr → Chest

/-- The macro `ITEM_CATEGORY_BITS`. -/
def ITEM_CATEGORY_BITS (K : Constants F) : Nat := K.kInteractable

/-- The macro `ITEM_MASK_BITS`. -/
def ITEM_MASK_BITS (K : Constants F) : Nat := K.kGround ||| K.kPlatform ||| K.kWall

/-- `Chest::defineBody(bodyType, x, y, categoryBits, maskBits)` on the chest at `this`. -/
def Chest.defineBody [NatCast F] (K : Constants F) (this : ActorPtr) (bodyType : b2BodyType)
    (x y : F) (categoryBits maskBits : Nat) (st : Stage F) : Stage F :=
  let bodyBuilder := b2BodyBuilder.new st.world
  let bodyBuilder := ((bodyBuilder.type bodyType).position x y K.kPpm).buildBody
  let _body := bodyBuilder.body
  let bodyBuilder :=
    ((((bodyBuilder.newRectangleFixture ((16 / 2 : Nat) : F) ((16 / 2 : Nat) : F) K.kPpm
      ).categoryBits categoryBits
      ).maskBits maskBits
      ).setUserData (UserData.actor this)
      ).buildFixture
  let bodyBuilder :=
    (((((bodyBuilder.newRectangleFixture ((16 / 2 : Nat) : F) ((16 / 2 : Nat) : F) K.kPpm
      ).categoryBits K.kInteractable
      ).maskBits K.kFeet
      ).setSensor true
      ).setUserData (UserData.interactable this)
      ).buildFixture
  { st with
    world := bodyBuilder.world
    chests := Function.update st.chests this { st.chests this with _body := _body } }

/-- `Chest::showOnMap(x, y)` on the chest at `this`. -/
def Chest.showOnMap [NatCast F] (K : Constants F) (this : ActorPtr) (x y : F)
    (st : Stage F) : Bool × Stage F :=
  if (st.chests this)._isShownOnMap then
    (false, st)
  else
    let st : Stage F :=
      { st with chests :=
          Function.update st.chests this { st.chests this with _isShownOnMap := true } }
    let st := Chest.defineBody K this b2BodyType.b2_dynamicBody x y
      (ITEM_CATEGORY_BITS K) (ITEM_MASK_BITS K) st
    let _bodySprite : Sprite :=
      { file := "Texture/interactable_object/chest/chest_close.png", aliased := true }
    (true,
      { st with
        layer := st.layer ++ [(_bodySprite, K.kChest)]
        chests :=
          Function.update st.chests this
            { st.chests this with _bodySprite := some _bodySprite } })

/-- A chest seen through the `DynamicActor` interface.  `removeFromMap` is inherited from
`DynamicActor`, whose source is missing, and is a parameter. -/
def chestActor [NatCast F] (K : Constants F) (removeFromMap : ActorPtr → Stage F → Stage F) :
    DynamicActor F (Stage F) where
  showOnMap := Chest.showOnMap K
  removeFromMap := removeFromMap

/-- The body that `Chest::defineBody` describes for the chest at `this`: one body of the
given type at `(x, y)` with a solid fixture carrying the given bits and a sensor fixture
`kInteractable`/`kFeet`, both 8 by 8 rectangles pointing back to the chest. -/
def Chest.bodyFor [NatCast F] (K : Constants F) (this : ActorPtr) (bodyType : b2BodyType)
    (x y : F) (categoryBits maskBits : Nat) : b2Body F :=
  { type := bodyType
    position := some (x, y, K.kPpm)
    fixtures :=
      [{ shape := b2Shape.rectangle ((8 : Nat) : F) ((8 : Nat) : F) K.kPpm
         categoryBits := some categoryBits
         maskBits := some maskBits
         isSensor := none
         friction := none
         userData := some (UserData.actor this) },
       { shape := b2Shape.rectangle ((8 : Nat) : F) ((8 : Nat) : F) K.kPpm
         categoryBits := some K.kInteractable
         maskBits := some K.kFeet
         isSensor := some true
         friction := none
         userData := some (UserData.interactable this) }] }

/-- The sprite `Chest::showOnMap` creates. -/
def Chest.closedSprite : Sprite :=
  { file := "Texture/interactable_object/chest/chest_close.png", aliased := true }

/-! ## Map loading (`Classes/map/GameMapManager.cc`) -/

/-- Outcome of a run that can stop at a null dereference or an out-of-range access:
`done s` when it returned in state `s`, `fault s` when it stopped, `s` being the state
reached at that point. -/
inductive Run (σ : Type) where
  | done (s : σ)
  | fault (s : σ)
  deriving DecidableEq, Repr

/-- Sequencing: a faulted run stays faulted. -/
def Run.bind {σ : Type} (r : Run σ) (f : σ → Run σ) : Run σ :=
  match r with
  | Run.done s => f s
  | Run.fault s => Run.fault s

/-- The state a run ended in, returned or stopped. -/
def Run.state {σ : Type} : Run σ → σ
  | Run.done s => s
  | Run.fault s => s

/-- Whether a run stopped without returning. -/
def Run.isFault {σ : Type} : Run σ → Bool
  | Run.done _ => false
  | Run.fault _ => true

/-- An object of a TMX object group, by the keys the loader reads.  The TMX reader gives
every object `x`, `y`, `width`, `height`; only a polyline object has `polylinePoints`. -/
structure TMXObject (F : Type) where
  x : F
  y : F
  width : F
  height : F
  polylinePoints : Option (List (F × F))
  deriving DecidableEq, Repr

/-- A parsed `cocos2d::TMXTiledMap`: its object groups, by name, in file order. -/
structure TMXTiledMap (F : Type) where
  objectGroups : List (String × List (TMXObject F))
  deriving DecidableEq, Repr

/-- `TMXTiledMap::getObjectGroup(name)`: the first group of that name, null when there is
none. -/
def TMXTiledMap.getObjectGroup (map : TMXTiledMap F) (groupName : String) :
    Option (List (TMXObject F)) :=
  map.objectGroups.lookup groupName

namespace Classes

/-- Constructor arguments of a `Player` (`character/Player.h` is missing). -/
structure Player (F : Type) where
  name : String
  x : F
  y : F
  deriving DecidableEq, Repr

/-- Constructor arguments of an `Enemy` (`character/Enemy.h` is missing). -/
structure Enemy (F : Type) where
  name : String
  x : F
  y : F
  deriving DecidableEq, Repr

/-- A `Character` owned by `_characters`. -/
inductive Character (F : Type) where
  | player (p : Player F)
  | enemy (e : Enemy F)
  deriving DecidableEq, Repr

/-- Constructor arguments of an `Equipment` of type `WEAPON` (`item/Equipment.h` is
missing); the last two are the integer literals passed. -/
structure Equipment where
  name : String
  desc : String
  icon : String
  spritesheet : String
  arg5 : Nat
  arg6 : Nat
  deriving DecidableEq, Repr

/-- A child node of the manager layer. -/
inductive Node (F : Type) where
  | map (m : TMXTiledMap F)
  | bodySpritesheet (c : Character F)
  | itemSprite (i : Equipment)
  deriving DecidableEq, Repr

/-- What `load` depends on outside the manager: the constants, the director's content scale
factor, the asset names `asset_manager::kRustyAxeIcon` and `kRustyAxeSpritesheet`, and
`TMXTiledMap::create`, which maps a file name to the parsed map, null when the file cannot
be loaded. -/
structure Env (F : Type) where
  K : Constants F
  scaleFactor : F
  kRustyAxeIcon : String
  kRustyAxeSpritesheet : String
  create : String → Option (TMXTiledMap F)

/-- The manager object: the physics world, the current map, the player, the owned
characters and items (in insertion order), and the children of the layer with the z-order
given to `addChild`, if any. -/
structure GameMapManager (F : Type) where
  _world : b2World F
  _map : Option (TMXTiledMap F)
  _player : Option (Player F)
  _characters : List (Character F)
  _items : List (Equipment)
  children : List (Node F × Option Int)
  deriving DecidableEq, Repr

section loading

variable [Add F] [Sub F] [Div F] [NatCast F]

/-- Body of the loop of `GameMapManager::createRectangles` for one object. -/
def createRectangle (kPpm : F) (categoryBits : Nat) (isCollidable : Bool) (friction : F)
    (world : b2World F) (obj : TMXObject F) : b2World F :=
  let x := obj.x
  let y := obj.y
  let w := obj.width
  let h := obj.height
  let bodyBuilder := b2BodyBuilder.new world
  let bodyBuilder :=
    ((bodyBuilder.type b2BodyType.b2_staticBody
      ).position (x + w / ((2 : Nat) : F)) (y + h / ((2 : Nat) : F)) kPpm
      ).buildBody
  let bodyBuilder :=
    ((((bodyBuilder.newRectangleFixture (w / ((2 : Nat) : F)) (h / ((2 : Nat) : F)) kPpm
      ).categoryBits categoryBits
      ).setSensor (!isCollidable)
      ).friction friction
      ).buildFixture
  bodyBuilder.world

/-- `GameMapManager::createRectangles(world, map, layerName, categoryBits, isCollidable,
friction)`.  It stops at `portals->getObjects()` when the map has no such group. -/
def createRectangles (kPpm : F) (map : TMXTiledMap F) (layerName : String)
    (categoryBits : Nat) (isCollidable : Bool) (friction : F) (world : b2World F) :
    Run (b2World F) :=
  match map.getObjectGroup layerName with
  | none => Run.fault world
  | some objects =>
    Run.done (objects.foldl (createRectangle kPpm categoryBits isCollidable friction) world)

/-- The loop of `GameMapManager::createPolylines` over the objects of a group.  It stops at
`valMap["polylinePoints"].asValueVector()` on an object that has no polyline points. -/
def createPolylinesLoop (kPpm scaleFactor : F) (categoryBits : Nat) (isCollidable : Bool)
    (friction : F) : List (TMXObject F) → b2World F → Run (b2World F)
  | [], world => Run.done world
  | obj :: rest, world =>
    let xRef := obj.x
    let yRef := obj.y
    match obj.polylinePoints with
    | none => Run.fault world
    | some valVec =>
      let vertices : List (F × F) :=
        valVec.map fun p => (xRef + p.1 / scaleFactor, yRef - p.2 / scaleFactor)
      let bodyBuilder := b2BodyBuilder.new world
      let bodyBuilder :=
        ((bodyBuilder.type b2BodyType.b2_staticBody
          ).position ((0 : Nat) : F) ((0 : Nat) : F) kPpm
          ).buildBody
      let bodyBuilder :=
        ((((bodyBuilder.newPolylineFixture vertices valVec.length kPpm
          ).categoryBits categoryBits
          ).setSensor (!isCollidable)
          ).friction friction
          ).buildFixture
      createPolylinesLoop kPpm scaleFactor categoryBits isCollidable friction rest
        bodyBuilder.world

/-- `GameMapManager::createPolylines(world, map, layerName, categoryBits, isCollidable,
friction)`.  It stops at `->getObjects()` when the map has no such group. -/
def createPolylines (kPpm scaleFactor : F) (map : TMXTiledMap F) (layerName : String)
    (categoryBits : Nat) (isCollidable : Bool) (friction : F) (world : b2World F) :
    Run (b2World F) :=
  match map.getObjectGroup layerName with
  | none => Run.fault world
  | some objects =>
    createPolylinesLoop kPpm scaleFactor categoryBits isCollidable friction objects world

/-- The five calls of `GameMapManager::load` that create box2d objects from layers. -/
def createStaticGeometry (E : Env F) (map : TMXTiledMap F) (world : b2World F) :
    Run (b2World F) :=
  ((((createPolylines E.K.kPpm E.scaleFactor map "Ground" E.K.kGround true ((2 : Nat) : F)
        world
    ).bind (createPolylines E.K.kPpm E.scaleFactor map "Wall" E.K.kWall true ((1 : Nat) : F))
    ).bind (createRectangles E.K.kPpm map "Platform" E.K.kPlatform true ((2 : Nat) : F))
    ).bind (createRectangles E.K.kPpm map "Portal" E.K.kPortal false ((0 : Nat) : F))
    ).bind (createPolylines E.K.kPpm E.scaleFactor map "CliffMarker" E.K.kCliffMarker false
        ((0 : Nat) : F))

/-- `GameMapManager::spawnPlayer()`.  The result is `none` when the call stops: `_map` is
null, the map has no `Player` group, or the group has no object at index 0. -/
def GameMapManager.spawnPlayer (self : GameMapManager F) : Option (Player F) :=
  match self._map with
  | none => none
  | some map =>
    match map.getObjectGroup "Player" with
    | none => none
    | some objects =>
      match objects[0]? with
      | none => none
      | some playerValMap =>
        let x := playerValMap.x
        let y := playerValMap.y
        some { name := "Aesophor", x := x, y := y }

/-- The items spawned by the loop `for (int i = 0; i < 10; i++)` of `load`, from index `i`
on, `n` of them. -/
def rustyAxes (E : Env F) (i : Nat) : Nat → List Equipment
  | 0 => []
  | n + 1 =>
    { name := "Rusty Axe" ++ toString i, desc := "An old rusty axe", icon := E.kRustyAxeIcon,
      spritesheet := E.kRustyAxeSpritesheet ++ ".png", arg5 := 200, arg6 := 80 } ::
      rustyAxes E (i + 1) n

/-- `GameMapManager::load(mapFileName)`.  The constructors of `Player`, `Enemy` and
`Equipment` are missing from the sources: the objects are recorded by their constructor
arguments, and what the constructors do to the world is not described here. -/
def GameMapManager.load [DecidableEq F] (E : Env F) (mapFileName : String)
    (self : GameMapManager F) : Run (GameMapManager F) :=
  -- if (_map) { removeChild(_map); _map = nullptr; }
  let self : GameMapManager F :=
    match self._map with
    | some old =>
      { self with
        children := self.children.eraseP (fun c => decide (c.1 = Node.map old))
        _map := none }
    | none => self
  -- _map = TMXTiledMap::create(mapFileName); addChild(_map, 0);
  let self : GameMapManager F := { self with _map := E.create mapFileName }
  match self._map with
  | none => Run.fault self
  | some map =>
    let self : GameMapManager F :=
      { self with children := self.children ++ [(Node.map map, some 0)] }
    -- Create box2d objects from layers
    match createStaticGeometry E map self._world with
    | Run.fault world => Run.fault { self with _world := world }
    | Run.done world =>
      let self : GameMapManager F := { self with _world := world }
      -- Spawn the player.
      match self.spawnPlayer with
      | none => Run.fault self
      | some player =>
        let self : GameMapManager F :=
          { self with
            _player := some player
            _characters := self._characters ++ [Character.player player]
            children :=
              self.children ++ [(Node.bodySpritesheet (Character.player player), none)] }
        -- Spawn an enemy.
        let enemy : Enemy F :=
          { name := "Castle Guard", x := ((300 : Nat) : F), y := ((100 : Nat) : F) }
        let self : GameMapManager F :=
          { self with
            _characters := self._characters ++ [Character.enemy enemy]
            children :=
              self.children ++ [(Node.bodySpritesheet (Character.enemy enemy), none)] }
        -- Spawn an item.
        let items := rustyAxes E 0 10
        Run.done
          { self with
            _items := self._items ++ items
            children := self.children ++ items.map fun item => (Node.itemSprite item, some 32) }

end loading

end Classes

/-! ### Static layers, as the level format declares them -/

/-- The five static-geometry layers, in the order `load` builds them. -/
inductive StaticLayer where
  | Ground
  | Wall
  | Platform
  | Portal
  | CliffMarker
  deriving DecidableEq, Repr

namespace StaticLayer

/-- Name of the object group of a layer in the level file. -/
def groupName : StaticLayer → String
  | Ground => "Ground"
  | Wall => "Wall"
  | Platform => "Platform"
  | Portal => "Portal"
  | CliffMarker => "CliffMarker"

/-- Category bits declared for a layer. -/
def categoryBits (K : Constants F) : StaticLayer → Nat
  | Ground => K.kGround
  | Wall => K.kWall
  | Platform => K.kPlatform
  | Portal => K.kPortal
  | CliffMarker => K.kCliffMarker

/-- Collidable flag declared for a layer. -/
def collidable : StaticLayer → Bool
  | Ground => true
  | Wall => true
  | Platform => true
  | Portal => false
  | CliffMarker => false

/-- Friction declared for a layer. -/
def friction [NatCast F] : StaticLayer → F
  | Ground => ((2 : Nat) : F)
  | Wall => ((1 : Nat) : F)
  | Platform => ((2 : Nat) : F)
  | Portal => ((0 : Nat) : F)
  | CliffMarker => ((0 : Nat) : F)

/-- Objects authored for a layer in a map: none when the map has no such group. -/
def objects (map : TMXTiledMap F) (layer : StaticLayer) : List (TMXObject F) :=
  (map.getObjectGroup layer.groupName).getD []

/-- What the claim requires of the body built for an object of a layer: a static body
with exactly one fixture, whose category bits are the layer's, whose sensor flag is the
negation of the layer's collidable flag and whose friction is the layer's. -/
def builtAs [NatCast F] (K : Constants F) (p : StaticLayer × TMXObject F) (body : b2Body F) :
    Prop :=
  body.type = b2BodyType.b2_staticBody ∧
  ∃ f : b2Fixture F, body.fixtures = [f] ∧
    f.categoryBits = some (p.1.categoryBits K) ∧
    f.isSensor = some (!p.1.collidable) ∧
    f.friction = some p.1.friction

end StaticLayer

/-- The authored objects of the five static layers of a map, each with its layer, in the
order `load` visits them. -/
def TMXTiledMap.staticObjects (map : TMXTiledMap F) : List (StaticLayer × TMXObject F) :=
  (StaticLayer.Ground.objects map).map (Prod.mk StaticLayer.Ground) ++
  (StaticLayer.Wall.objects map).map (Prod.mk StaticLayer.Wall) ++
  (StaticLayer.Platform.objects map).map (Prod.mk StaticLayer.Platform) ++
  (StaticLayer.Portal.objects map).map (Prod.mk StaticLayer.Portal) ++
  (StaticLayer.CliffMarker.objects map).map (Prod.mk StaticLayer.CliffMarker)

/-- A group of polyline objects: the group exists and every object has polyline points. -/
def TMXTiledMap.polylineGroup (map : TMXTiledMap F) (groupName : String) : Bool :=
  match map.getObjectGroup groupName with
  | none => false
  | some objects => objects.all fun obj => obj.polylinePoints.isSome

/-- The level format for the static layers: the five groups exist, and the objects of
`Ground`, `Wall` and `CliffMarker` are polylines. -/
def TMXTiledMap.hasStaticLayers (map : TMXTiledMap F) : Bool :=
  map.polylineGroup "Ground" && map.polylineGroup "Wall" &&
  (map.getObjectGroup "Platform").isSome && (map.getObjectGroup "Portal").isSome &&
  map.polylineGroup "CliffMarker"

/-- The body `createRectangles` describes for one object. -/
def rectangleBody [Add F] [Div F] [NatCast F] (kPpm : F) (categoryBits : Nat)
    (isCollidable : Bool) (friction : F) (obj : TMXObject F) : b2Body F :=
  { type := b2BodyType.b2_staticBody
    position := some (obj.x + obj.width / ((2 : Nat) : F),
      obj.y + obj.height / ((2 : Nat) : F), kPpm)
    fixtures :=
      [{ shape := b2Shape.rectangle (obj.width / ((2 : Nat) : F))
           (obj.height / ((2 : Nat) : F)) kPpm
         categoryBits := some categoryBits
         maskBits := none
         isSensor := some (!isCollidable)
         friction := some friction
         userData := none }] }

/-- The body `createPolylines` describes for one object with polyline points. -/
def polylineBody [Add F] [Sub F] [Div F] [NatCast F] (kPpm scaleFactor : F)
    (categoryBits : Nat) (isCollidable : Bool) (friction : F) (obj : TMXObject F) : b2Body F :=
  { type := b2BodyType.b2_staticBody
    position := some (((0 : Nat) : F), ((0 : Nat) : F), kPpm)
    fixtures :=
      [{ shape := b2Shape.polyline
           ((obj.polylinePoints.getD []).map fun p =>
             (obj.x + p.1 / scaleFactor, obj.y - p.2 / scaleFactor))
           (obj.polylinePoints.getD []).length kPpm
         categoryBits := some categoryBits
         maskBits := none
         isSensor := some (!isCollidable)
         friction := some friction
         userData := none }] }

/-- The body `load` describes for an authored object of a static layer, following its five
calls. -/
def Classes.staticBody [Add F] [Sub F] [Div F] [NatCast F] (E : Classes.Env F)
    (p : StaticLayer × TMXObject F) : b2Body F :=
  match p.1 with
  | StaticLayer.Ground =>
    polylineBody E.K.kPpm E.scaleFactor E.K.kGround true ((2 : Nat) : F) p.2
  | StaticLayer.Wall =>
    polylineBody E.K.kPpm E.scaleFactor E.K.kWall true ((1 : Nat) : F) p.2
  | StaticLayer.Platform =>
    rectangleBody E.K.kPpm E.K.kPlatform true ((2 : Nat) : F) p.2
  | StaticLayer.Portal =>
    rectangleBody E.K.kPpm E.K.kPortal false ((0 : Nat) : F) p.2
  | StaticLayer.CliffMarker =>
    polylineBody E.K.kPpm E.scaleFactor E.K.kCliffMarker false ((0 : Nat) : F) p.2

/-- The children of the layer once `load` has removed the previous map node, if any. -/
def Classes.GameMapManager.detached [DecidableEq F] (self : Classes.GameMapManager F) :
    List (Classes.Node F × Option Int) :=
  match self._map with
  | some old => self.children.eraseP (fun c => decide (c.1 = Classes.Node.map old))
  | none => self.children

/-- The level format for the spawn point: the `Player` group exists and has an object. -/
def TMXTiledMap.hasSpawnPoint (map : TMXTiledMap F) : Bool :=
  match map.getObjectGroup "Player" with
  | some (_ :: _) => true
  | _ => false

/-- Sample constants: distinct single-bit categories, 32 pixels per metre. -/
def demoConstants : Constants Int :=
  { kPpm := 32, kGround := 1, kPlatform := 2, kWall := 4, kPortal := 8, kCliffMarker := 16,
    kFeet := 32, kInteractable := 64, kChest := 3 }

/-- A chest as its constructor leaves it, holding two item descriptors. -/
def demoChest : Chest :=
  { _isShownOnMap := false, _body := none, _bodySprite := none, _hintBubbleFxSprite := none,
    _itemJsons := ["Resources/Database/item/a.json", "Resources/Database/item/b.json"],
    _isOpened := false }

/-- An empty world and layer; every address holds a fresh chest. -/
def demoStage : Stage Int :=
  { world := { bodies := [] }, layer := [], chests := fun _ => demoChest }

/-- The stage after the chest at address 7 was shown by calling its `showOnMap` directly. -/
def demoShownStage : Stage Int := (Chest.showOnMap demoConstants 7 30 40 demoStage).2

/-- An empty registry over `demoShownStage`: the chest at address 7 has its shown flag set
and is not registered. -/
def demoShownMap : GameMap Int (Stage Int) :=
  { _dynamicActors := ∅, stage := demoShownStage, vcalls := [] }

/-- The registry `{7}` over `demoShownStage`: the chest at address 7 is shown and
registered. -/
def demoRegisteredMap : GameMap Int (Stage Int) :=
  { _dynamicActors := {7}, stage := demoShownStage, vcalls := [VCall.showOnMap 7 30 40] }

/-- A level with two ground polylines, one wall, one platform, one portal, one cliff marker
and a player spawn point at `(64, 128)`. -/
def demoLevel : TMXTiledMap Int :=
  { objectGroups :=
      [("Ground",
          [{ x := 0, y := 0, width := 0, height := 0,
             polylinePoints := some [(0, 0), (100, 0)] },
           { x := 100, y := 0, width := 0, height := 0,
             polylinePoints := some [(0, 0), (50, 10), (90, 10)] }]),
       ("Wall",
          [{ x := 0, y := 0, width := 0, height := 0,
             polylinePoints := some [(0, 0), (0, 200)] }]),
       ("Platform", [{ x := 40, y := 60, width := 20, height := 4, polylinePoints := none }]),
       ("Portal", [{ x := 180, y := 0, width := 16, height := 32, polylinePoints := none }]),
       ("CliffMarker",
          [{ x := 190, y := 0, width := 0, height := 0,
             polylinePoints := some [(0, 0), (0, 16)] }]),
       ("Player", [{ x := 64, y := 128, width := 0, height := 0, polylinePoints := none }])] }

/-- The level `demoLevel` with an empty `Player` group. -/
def demoLevelNoSpawn : TMXTiledMap Int :=
  { objectGroups := demoLevel.objectGroups.take 5 ++ [("Player", [])] }

/-- An environment in which `level1.tmx` and `nospawn.tmx` parse and nothing else does. -/
def demoEnv : Classes.Env Int :=
  { K := demoConstants, scaleFactor := 1, kRustyAxeIcon := "icon", kRustyAxeSpritesheet := "axe",
    create := fun file =>
      if file = "level1.tmx" then some demoLevel
      else if file = "nospawn.tmx" then some demoLevelNoSpawn
      else none }

/-- A manager as `init` leaves it: empty world, no map, no player. -/
def demoInit : Classes.GameMapManager Int :=
  { _world := { bodies := [] }, _map := none, _player := none, _characters := [], _items := [],
    children := [] }

/-- The manager after `level1.tmx` was loaded from `demoInit`. -/
def demoLoaded : Classes.GameMapManager Int :=
  (Classes.GameMapManager.load demoEnv "level1.tmx" demoInit).state

/-! ### Static geometry built when the step stops -/

/-- Whether `load` builds a layer with `createPolylines` (`Ground`, `Wall`, `CliffMarker`) or
with `createRectangles` (`Platform`, `Portal`). -/
def StaticLayer.isPolyline : StaticLayer → Bool
  | StaticLayer.Ground => true
  | StaticLayer.Wall => true
  | StaticLayer.Platform => false
  | StaticLayer.Portal => false
  | StaticLayer.CliffMarker => true

/-- The five static layers in the order `load` builds them. -/
def StaticLayer.all : List StaticLayer :=
  [StaticLayer.Ground, StaticLayer.Wall, StaticLayer.Platform, StaticLayer.Portal,
   StaticLayer.CliffMarker]

/-- Whether a layer of a map is built to its end: its group exists and, for a polyline
layer, every object has polyline points. -/
def TMXTiledMap.layerComplete (map : TMXTiledMap F) (layer : StaticLayer) : Bool :=
  if layer.isPolyline then map.polylineGroup layer.groupName
  else (map.getObjectGroup layer.groupName).isSome

/-- The bodies built for one layer of a map: one per authored object, in order; for a
polyline layer only up to the first object without polyline points; none when the group is
missing. -/
def Classes.layerBuilt [Add F] [Sub F] [Div F] [NatCast F] (E : Classes.Env F)
    (map : TMXTiledMap F) (layer : StaticLayer) : List (b2Body F) :=
  (if layer.isPolyline then
      (layer.objects map).takeWhile fun obj => obj.polylinePoints.isSome
    else layer.objects map).map fun obj => Classes.staticBody E (layer, obj)

/-- The static geometry built from a map for the given layers, in order, up to and
including the first layer that is not built to its end. -/
def Classes.geometryBuilt [Add F] [Sub F] [Div F] [NatCast F] (E : Classes.Env F)
    (map : TMXTiledMap F) : List StaticLayer → List (b2Body F)
  | [] => []
  | layer :: rest =>
    Classes.layerBuilt E map layer ++
      (if map.layerComplete layer then Classes.geometryBuilt E map rest else [])

/-- The static geometry `load` has built for a file when it stops or returns: none when
the file cannot be parsed. -/
def Classes.builtFor [Add F] [Sub F] [Div F] [NatCast F] (E : Classes.Env F)
    (mapFileName : String) : List (b2Body F) :=
  match E.create mapFileName with
  | none => []
  | some map => Classes.geometryBuilt E map StaticLayer.all

/-- A level whose `Wall` group holds a polyline followed by an object without polyline
points, and which has no other group after it. -/
def demoLevelBrokenWall : TMXTiledMap Int :=
  { objectGroups := demoLevel.objectGroups.take 1 ++
      [("Wall",
          [{ x := 0, y := 0, width := 0, height := 0,
             polylinePoints := some [(0, 0), (0, 200)] },
           { x := 5, y := 5, width := 10, height := 10, polylinePoints := none },
           { x := 9, y := 0, width := 0, height := 0,
             polylinePoints := some [(0, 0), (0, 100)] }])] }

/-- An environment in which only `brokenwall.tmx` parses. -/
def demoEnvBrokenWall : Classes.Env Int :=
  { demoEnv with
    create := fun file => if file = "brokenwall.tmx" then some demoLevelBrokenWall else none }

/-! ## Input manager (`Classes/input/InputManager.cc`) -/

/-- The enumeration `cocos2d::EventKeyboard::KeyCode`: `KEY_NONE` (the value 0, the only one
that converts to `false`), the key codes the sources name, and every other key.  Distinct
constructors are distinct key codes. -/
inductive KeyCode where
  | KEY_NONE
  | KEY_LEFT_SHIFT
  | KEY_LEFT_CTRL
  | KEY_X
  | KEY_C
  | KEY_V
  | KEY_CAPITAL_E
  | other (code : Nat)
  deriving DecidableEq, Repr

/-- Address of a `Keybindable` object. -/
abbrev KeybindablePtr := Nat

/-- The calls made on the pause menu dialog: its visibility and how many times its pause
menu was updated (`ui/pause_menu/PauseMenuDialog.h` is missing). -/
structure PauseMenuDialog where
  visible : Bool
  updates : Nat
  deriving DecidableEq, Repr

/-- The array `InputManager::_kBindableKeys`, of size `Hotkey::SIZE = 5`. -/
def _kBindableKeys : Fin 5 → KeyCode := fun i =>
  match i.val with
  | 0 => KeyCode.KEY_LEFT_SHIFT
  | 1 => KeyCode.KEY_LEFT_CTRL
  | 2 => KeyCode.KEY_X
  | 3 => KeyCode.KEY_C
  | _ => KeyCode.KEY_V

/-- The fields of `InputManager` (without the scene and the listener), and `hotkey`, the
hotkey stored in each `Keybindable` object, read by `getHotkey()` and written by
`setHotkey()` (`Keybindable.h` is missing). -/
structure InputManager where
  _pressedKeys : Finset KeyCode
  _hotkeys : Fin 5 → Option KeybindablePtr
  _isAssigningHotkey : Bool
  _keybindable : Option KeybindablePtr
  _pauseMenuDialog : Option PauseMenuDialog
  hotkey : KeybindablePtr → KeyCode

namespace InputManager

/-- The constructor `InputManager::InputManager()`: every field value-initialised.  The
keybindables start with the hotkeys `hotkey`. -/
def new (hotkey : KeybindablePtr → KeyCode) : InputManager :=
  { _pressedKeys := ∅, _hotkeys := fun _ => none, _isAssigningHotkey := false,
    _keybindable := none, _pauseMenuDialog := none, hotkey := hotkey }

/-- The loop header shared by `getHotkeyAction`, `setHotkeyAction` and `clearHotkeyAction`:
`for (size_t i = 0; i < _kBindableKeys.size(); i++) if (keyCode == _kBindableKeys[i])`, whose
body returns.  The result is the first index at which the test succeeds, if any. -/
def bindableIndex (keyCode : KeyCode) : Option (Fin 5) :=
  (List.finRange 5).find? fun i => decide (keyCode = _kBindableKeys i)

/-- `InputManager::isKeyPressed(keyCode)`. -/
def isKeyPressed (self : InputManager) (keyCode : KeyCode) : Bool :=
  decide (keyCode ∈ self._pressedKeys)

/-- `InputManager::isKeyJustPressed(keyCode)`: `std::set::erase` returns the number of
elements erased. -/
def isKeyJustPressed (self : InputManager) (keyCode : KeyCode) : Bool × InputManager :=
  let erased : Nat := if keyCode ∈ self._pressedKeys then 1 else 0
  (decide (erased > 0), { self with _pressedKeys := self._pressedKeys.erase keyCode })

/-- `InputManager::getHotkeyAction(keyCode)`. -/
def getHotkeyAction (self : InputManager) (keyCode : KeyCode) : Option KeybindablePtr :=
  match bindableIndex keyCode with
  | some i => self._hotkeys i
  | none => none

/-- `InputManager::clearHotkeyAction(keyCode)`. -/
def clearHotkeyAction (self : InputManager) (keyCode : KeyCode) : InputManager :=
  -- If keyCode == KeyCode::KEY_NONE, return at once.
  if keyCode = KeyCode.KEY_NONE then
    self
  else
    match bindableIndex keyCode with
    | some i =>
      let self : InputManager :=
        match self._hotkeys i with
        | some bound => { self with hotkey := Function.update self.hotkey bound KeyCode.KEY_NONE }
        | none => self
      { self with _hotkeys := Function.update self._hotkeys i none }
    | none => self

/-- `InputManager::setHotkeyAction(keyCode, keybindable)`.  The result is `none` when the
call stops at `keybindable->getHotkey()` on a null `keybindable`. -/
def setHotkeyAction (self : InputManager) (keyCode : KeyCode)
    (keybindable : Option KeybindablePtr) : Option InputManager :=
  match bindableIndex keyCode with
  | some i =>
    match keybindable with
    | none => none
    | some kb =>
      let self := self.clearHotkeyAction (self.hotkey kb)
      let self :=
        match self._hotkeys i with
        | some bound => self.clearHotkeyAction (self.hotkey bound)
        | none => self
      some { self with
        _hotkeys := Function.update self._hotkeys i (some kb)
        hotkey := Function.update self.hotkey kb keyCode }
  | none => some self

/-- `InputManager::promptHotkey(keybindable, pauseMenuDialog)`. -/
def promptHotkey (self : InputManager) (keybindable : Option KeybindablePtr)
    (pauseMenuDialog : Option PauseMenuDialog) : InputManager :=
  { self with
    _isAssigningHotkey := true
    _keybindable := keybindable
    _pauseMenuDialog := pauseMenuDialog }

/-- The listener `onKeyPressed` installed by `InputManager::activate`.  The result is `none`
when the call stops at a null `_keybindable` or a null `_pauseMenuDialog`. -/
def onKeyPressed (self : InputManager) (keyCode : KeyCode) : Option InputManager :=
  if !self._isAssigningHotkey then
    if keyCode ∉ self._pressedKeys then
      some { self with _pressedKeys := insert keyCode self._pressedKeys }
    else
      some self
  else
    match self.setHotkeyAction keyCode self._keybindable with
    | none => none
    | some self =>
      let self : InputManager := { self with _isAssigningHotkey := false, _keybindable := none }
      match self._pauseMenuDialog with
      | none => none
      | some dialog =>
        some { self with
          _pauseMenuDialog := some { visible := false, updates := dialog.updates + 1 } }

/-- The listener `onKeyReleased` installed by `InputManager::activate`. -/
def onKeyReleased (self : InputManager) (keyCode : KeyCode) : InputManager :=
  { self with _pressedKeys := self._pressedKeys.erase keyCode }

/-- A call of the hotkey interface with a non-null keybindable. -/
inductive HotkeyCall where
  | setHotkeyAction (keyCode : KeyCode) (keybindable : KeybindablePtr)
  | clearHotkeyAction (keyCode : KeyCode)
  deriving DecidableEq, Repr

/-- Running a sequence of hotkey calls, first call first. -/
def runHotkeyCalls : List HotkeyCall → InputManager → Option InputManager
  | [], self => some self
  | HotkeyCall.setHotkeyAction keyCode kb :: rest, self =>
    match self.setHotkeyAction keyCode (some kb) with
    | none => none
    | some self => runHotkeyCalls rest self
  | HotkeyCall.clearHotkeyAction keyCode :: rest, self =>
    runHotkeyCalls rest (self.clearHotkeyAction keyCode)

/-- Hotkey-table consistency: (1) a keybindable held by slot `i` has the hotkey
`_kBindableKeys[i]`; (2) a keybindable occupies at most one slot; (3) a keybindable held
by no slot has the hotkey `KEY_NONE`. -/
def hotkeysConsistent (self : InputManager) : Prop :=
  (∀ (i : Fin 5) (kb : KeybindablePtr),
    self._hotkeys i = some kb → self.hotkey kb = _kBindableKeys i) ∧
  (∀ (i j : Fin 5) (kb : KeybindablePtr),
    self._hotkeys i = some kb → self._hotkeys j = some kb → i = j) ∧
  (∀ kb : KeybindablePtr,
    (∀ i : Fin 5, self._hotkeys i ≠ some kb) → self.hotkey kb = KeyCode.KEY_NONE)

end InputManager

/-- A sequence of hotkey calls: bind keybindable 1 to X, keybindable 2 to X, keybindable 1 to
C, try an unbindable key, rebind keybindable 2 to V, clear C. -/
def demoHotkeyCalls : List InputManager.HotkeyCall :=
  [InputManager.HotkeyCall.setHotkeyAction KeyCode.KEY_X 1,
   InputManager.HotkeyCall.setHotkeyAction KeyCode.KEY_X 2,
   InputManager.HotkeyCall.setHotkeyAction KeyCode.KEY_C 1,
   InputManager.HotkeyCall.setHotkeyAction KeyCode.KEY_CAPITAL_E 3,
   InputManager.HotkeyCall.setHotkeyAction KeyCode.KEY_V 2,
   InputManager.HotkeyCall.clearHotkeyAction KeyCode.KEY_C]

/-- An input manager with the keys X and C pressed. -/
def demoInput : InputManager :=
  { InputManager.new (fun _ => KeyCode.KEY_NONE) with
    _pressedKeys := {KeyCode.KEY_X, KeyCode.KEY_C} }

/-! ## Chest interaction (`src/map/object/Chest.cc`) -/

/-- The default constructor `Chest::Chest()`: every field value-initialised; the chest is
not on a map. -/
def Chest.default : Chest :=
  { _isShownOnMap := false, _body := none, _bodySprite := none, _hintBubbleFxSprite := none,
    _itemJsons := [], _isOpened := false }

/-- The constructor `Chest::Chest(itemJsons)`; `split` is `string_util::split`, which is
missing from the sources. -/
def Chest.new (split : String → List String) (itemJsons : String) : Chest :=
  { Chest.default with _itemJsons := split itemJsons }

/-- A call `GameMap::createItem(itemJson, x, y, amount)`, by its arguments. -/
structure CreateItemCall (F : Type) where
  itemJson : String
  x : F
  y : F
  amount : Nat
  deriving DecidableEq, Repr

/-- What `Chest::onInteract` acts on.  `stage` is the physics world, the layer and the chest
objects.  The stage holds sprites by value, so the pointer from an actor to its sprite is
kept here: `bodySpriteChild a` is the index, among the children of the layer, of the child
that `_bodySprite` of the actor at `a` points to, if that sprite is a child of the layer.
`createItemCalls` are the calls of `GameMap::createItem` made so far on the current map, in
order.  The registry of the current map and the item objects are outside this state. -/
structure Play (F : Type) where
  stage : Stage F
  bodySpriteChild : ActorPtr → Option Nat
  createItemCalls : List (CreateItemCall F)

/-- The sprite of an opened chest: `setTexture` with the open-chest texture, then
`setAliasTexParameters`. -/
def Chest.openSprite : Sprite :=
  { file := "Texture/interactable_object/chest/chest_open.png", aliased := true }

/-- The effect of `_bodySprite->setTexture(...)` and `setAliasTexParameters()` on the layer:
the child the sprite pointer designates, if any, carries the open-chest texture; its
z-order and every other child are unchanged. -/
def Chest.retexture (layer : List (Sprite × Int)) (child : Option Nat) : List (Sprite × Int) :=
  match child with
  | none => layer
  | some i =>
    match layer[i]? with
    | none => layer
    | some old => layer.set i (Chest.openSprite, old.2)

/-- The loop `for (const auto& item : _itemJsons)` of `Chest::onInteract`.  `GetPosition` is
`b2Body::GetPosition`.  `GameMap::createItem` is declared in `GameMap.h` and its definition
is missing from the sources: `createItem call` is what a call shows on the map, the bodies
it adds to the physics world and the children it adds to the layer (none when it fails).
The loop stops at `_body->GetPosition()` when the chest has no body in the world. -/
def Chest.createItems [Mul F] (K : Constants F) (GetPosition : b2Body F → F × F)
    (createItem : CreateItemCall F → List (b2Body F) × List (Sprite × Int))
    (_body : Option Nat) : List String → Play F → Run (Play F)
  | [], s => Run.done s
  | item :: rest, s =>
    match _body.bind fun handle => s.stage.world.bodies[handle]? with
    | none => Run.fault s
    | some body =>
      let x := (GetPosition body).1
      let y := (GetPosition body).2
      let call : CreateItemCall F :=
        { itemJson := item, x := x * K.kPpm, y := y * K.kPpm, amount := 1 }
      let shown := createItem call
      Chest.createItems K GetPosition createItem _body rest
        { s with
          stage :=
            { s.stage with
              world := { bodies := s.stage.world.bodies ++ shown.1 }
              layer := s.stage.layer ++ shown.2 }
          createItemCalls := s.createItemCalls ++ [call] }

/-- `Chest::onInteract(Character*)` on the chest at `this`.  It stops at
`_bodySprite->setTexture` when the chest has no sprite, and inside the loop when it has
item descriptors and no body. -/
def Chest.onInteract [Mul F] (K : Constants F) (GetPosition : b2Body F → F × F)
    (createItem : CreateItemCall F → List (b2Body F) × List (Sprite × Int))
    (this : ActorPtr) (s : Play F) : Run (Play F) :=
  if (s.stage.chests this)._isOpened then
    Run.done s
  else
    let chest : Chest := { s.stage.chests this with _isOpened := true }
    match chest._bodySprite with
    | none =>
      Run.fault { s with stage :=
        { s.stage with chests := Function.update s.stage.chests this chest } }
    | some _ =>
      let chest : Chest := { chest with _bodySprite := some Chest.openSprite }
      let s : Play F :=
        { s with stage :=
          { s.stage with
            layer := Chest.retexture s.stage.layer (s.bodySpriteChild this)
            chests := Function.update s.stage.chests this chest } }
      match Chest.createItems K GetPosition createItem chest._body chest._itemJsons s with
      | Run.fault s => Run.fault s
      | Run.done s =>
        Run.done { s with stage :=
          { s.stage with chests :=
              (Function.update s.stage.chests this
                { s.stage.chests this with _itemJsons := [] }) } }

/-- A sequence of `n` calls of `Chest::onInteract` on the chest at `this`. -/
def Chest.onInteractTimes [Mul F] (K : Constants F) (GetPosition : b2Body F → F × F)
    (createItem : CreateItemCall F → List (b2Body F) × List (Sprite × Int))
    (this : ActorPtr) : Nat → Play F → Run (Play F)
  | 0, s => Run.done s
  | n + 1, s => (Chest.onInteract K GetPosition createItem this s).bind
      (Chest.onInteractTimes K GetPosition createItem this n)

/-- The calls `Chest::onInteract` makes for the item descriptors of a chest whose body is
`body`: one per descriptor, in order, at the body's position scaled by `kPpm`. -/
def Chest.itemCalls [Mul F] (K : Constants F) (GetPosition : b2Body F → F × F)
    (body : b2Body F) (itemJsons : List String) : List (CreateItemCall F) :=
  itemJsons.map fun item =>
    { itemJson := item, x := (GetPosition body).1 * K.kPpm,
      y := (GetPosition body).2 * K.kPpm, amount := 1 }

/-- What a sequence of `createItem` calls shows on the map: the bodies and the layer
children of each call, in the order of the calls. -/
def Chest.itemsShown (createItem : CreateItemCall F → List (b2Body F) × List (Sprite × Int)) :
    List (CreateItemCall F) → List (b2Body F) × List (Sprite × Int)
  | [] => ([], [])
  | call :: rest =>
    ((createItem call).1 ++ (Chest.itemsShown createItem rest).1,
     (createItem call).2 ++ (Chest.itemsShown createItem rest).2)

/-- A reading of `b2Body::GetPosition` for bodies made by the builder: the position given,
divided by the scale given. -/
def demoGetPosition (body : b2Body Int) : Int × Int :=
  match body.position with
  | some (x, y, ppm) => (x / ppm, y / ppm)
  | none => (0, 0)

/-- A sample `createItem`: every call shows one dynamic body at the position asked and one
sprite on the layer. -/
def demoCreateItem (call : CreateItemCall Int) : List (b2Body Int) × List (Sprite × Int) :=
  ([{ type := b2BodyType.b2_dynamicBody, position := some (call.x, call.y, 32),
      fixtures := [] }],
   [({ file := call.itemJson, aliased := true }, 4)])

/-- `Chest::showOnMap(x, y)` on the chest at `this`, keeping the sprite pointer: the sprite a
successful call creates is added as the last child of the layer. -/
def Chest.showOnMapIn [NatCast F] (K : Constants F) (this : ActorPtr) (x y : F)
    (s : Play F) : Bool × Play F :=
  let shown := Chest.showOnMap K this x y s.stage
  (shown.1,
    { s with
      stage := shown.2
      bodySpriteChild :=
        if shown.1 then Function.update s.bodySpriteChild this (some s.stage.layer.length)
        else s.bodySpriteChild })

/-- The chest at address 7, with its two item descriptors, shown at `(64, 128)` on an empty
stage: its sprite is child 0 of the layer; no item created yet. -/
def demoPlay : Play Int :=
  (Chest.showOnMapIn demoConstants 7 64 128
    { stage := demoStage, bodySpriteChild := fun _ => none, createItemCalls := [] }).2

/-! ## Map transition (`src/map/GameMapManager.h`) -/

/-- Modelled from the spec: `GameMapManager::loadGameMap` is declared in
`src/map/GameMapManager.h` and its definition is missing from the sources.  These are the
steps of a map transition the spec (4.5) names, as they happen in the main context: pending
deferred callbacks drained, parsing dispatched to the worker, a reported error, the old map
destroyed by `deleteObjects()`, the new map installed as active, the player shown at the
spawn position, and the completion callback invoked. -/
inductive LoadEvent (F : Type) where
  | callbacksDrained
  | workerDispatched (tmxMapFileName : String)
  | errorReported (tmxMapFileName : String)
  | deleteObjects (tmxMapFileName : String)
  | installed (tmxMapFileName : String)
  | playerShown (x y : F)
  | afterLoaded (callback : Nat)
  deriving DecidableEq, Repr

/-- Whether an event is the invocation of a completion callback. -/
def LoadEvent.isCallback : LoadEvent F → Bool
  | LoadEvent.afterLoaded _ => true
  | _ => false

/-- Modelled from the spec: the state of the map manager of `src/map/GameMapManager.h` that a
transition reads and writes: the active map `_gameMap` with its file name, the position of
the player actor, the number of pending deferred callbacks, and the events so far. -/
structure GameMapManager (F : Type) where
  _gameMap : Option (String × TMXTiledMap F)
  _player : Option (F × F)
  pendingCallbacks : Nat
  events : List (LoadEvent F)

/-- Modelled from the spec: the result the background worker hands back for a file: the
parsed map and the position of its designated player-spawn object; nothing when the level
file is malformed or the spawn-point object is missing. -/
def GameMapManager.workerResult (parse : String → Option (TMXTiledMap F))
    (tmxMapFileName : String) : Option (TMXTiledMap F × F × F) :=
  match parse tmxMapFileName with
  | none => none
  | some map =>
    match map.getObjectGroup "Player" with
    | some (spawn :: _) => some (map, spawn.x, spawn.y)
    | _ => none

/-- Modelled from the spec: `loadGameMap(tmxMapFileName, afterLoadingGameMap)` run to the
completion of the transition (spec 4.5).  Step 1 drains the pending deferred callbacks, step
2 dispatches parsing to the worker.  When the worker fails the manager reports the error
and the previous map stays active.  Otherwise step 3 runs in the main context: the active
map is destroyed, the new map is installed, its player is shown at the spawn position, and
finally the callback is invoked if supplied. -/
def GameMapManager.loadGameMap (parse : String → Option (TMXTiledMap F))
    (self : GameMapManager F) (tmxMapFileName : String) (afterLoadingGameMap : Option Nat) :
    GameMapManager F :=
  let self : GameMapManager F :=
    { self with
      pendingCallbacks := 0
      events := self.events ++
        [LoadEvent.callbacksDrained, LoadEvent.workerDispatched tmxMapFileName] }
  match GameMapManager.workerResult parse tmxMapFileName with
  | none =>
    { self with events := self.events ++ [LoadEvent.errorReported tmxMapFileName] }
  | some (map, x, y) =>
    let teardown : List (LoadEvent F) :=
      match self._gameMap with
      | some old => [LoadEvent.deleteObjects old.1]
      | none => []
    let callback : List (LoadEvent F) :=
      match afterLoadingGameMap with
      | some cb => [LoadEvent.afterLoaded cb]
      | none => []
    { self with
      _gameMap := some (tmxMapFileName, map)
      _player := some (x, y)
      events := self.events ++ teardown ++
        [LoadEvent.installed tmxMapFileName, LoadEvent.playerShown x y] ++ callback }

/-- A manager with `level1.tmx` active. -/
def demoManager : GameMapManager Int :=
  { _gameMap := some ("level1.tmx", demoLevel), _player := some (64, 128),
    pendingCallbacks := 2, events := [] }

/-! ## Theorems -/

/-- Claim C1: showing an actor that is already a member of the registry returns null, makes
no virtual call (in particular no `showOnMap`), and leaves the registry, its size and the
state behind the actors exactly as they were. -/
theorem showDynamicActor_member (vt : DynamicActor F W) (cast : ActorPtr → Bool)
    (self : GameMap F W) (actor : ActorPtr) (x y : F)
    (h : actor ∈ self._dynamicActors) :
    (self.showDynamicActor vt cast actor x y).1 = none ∧
    (self.showDynamicActor vt cast actor x y).2.vcalls = self.vcalls ∧
    (self.showDynamicActor vt cast actor x y).2.stage = self.stage ∧
    (self.showDynamicActor vt cast actor x y).2._dynamicActors = self._dynamicActors ∧
    (self.showDynamicActor vt cast actor x y).2._dynamicActors.card
      = self._dynamicActors.card := by
  simp [GameMap.showDynamicActor, h]

/-- Witness for C1 at the registry `{1, 2}` and the member `1`. -/
theorem showDynamicActor_member_witness :
    (1 : ActorPtr) ∈ demoMap._dynamicActors ∧
    (demoMap.showDynamicActor flagActor castDynamicActor 1 30 40).1 = none ∧
    (demoMap.showDynamicActor flagActor castDynamicActor 1 30 40).2.vcalls = [] :=
  ⟨by decide,
   (showDynamicActor_member flagActor castDynamicActor demoMap 1 30 40 (by decide)).1,
   (showDynamicActor_member flagActor castDynamicActor demoMap 1 30 40 (by decide)).2.1⟩

/-- Claim C2: showing an actor that is not a member of the registry (default `ReturnType`)
calls the actor's `showOnMap` exactly once, with the given `(x, y)`, returns that same actor,
and the registry becomes the old registry plus exactly that actor: its size grows by one
and membership of every other actor is unchanged. -/
theorem showDynamicActor_fresh (vt : DynamicActor F W) (self : GameMap F W)
    (actor : ActorPtr) (x y : F) (h : actor ∉ self._dynamicActors) :
    (self.showDynamicActor vt castDynamicActor actor x y).1 = some actor ∧
    (self.showDynamicActor vt castDynamicActor actor x y).2.vcalls
      = self.vcalls ++ [VCall.showOnMap actor x y] ∧
    (self.showDynamicActor vt castDynamicActor actor x y).2.stage
      = (vt.showOnMap actor x y self.stage).2 ∧
    (self.showDynamicActor vt castDynamicActor actor x y).2._dynamicActors
      = insert actor self._dynamicActors ∧
    (self.showDynamicActor vt castDynamicActor actor x y).2._dynamicActors.card
      = self._dynamicActors.card + 1 ∧
    (∀ b : ActorPtr, b ≠ actor →
      (b ∈ (self.showDynamicActor vt castDynamicActor actor x y).2._dynamicActors
        ↔ b ∈ self._dynamicActors)) := by
  refine ⟨?_, ?_, ?_, ?_, ?_, ?_⟩
  · simp [GameMap.showDynamicActor, h, castDynamicActor]
  · simp [GameMap.showDynamicActor, h]
  · simp [GameMap.showDynamicActor, h]
  · simp [GameMap.showDynamicActor, h]
  · simp [GameMap.showDynamicActor, h, Finset.card_insert_of_not_mem]
  · intro b hb
    simp [GameMap.showDynamicActor, h, Finset.mem_insert, hb]

/-- Witness for C2 at the registry `{1, 2}` and the fresh actor `5`. -/
theorem showDynamicActor_fresh_witness :
    (5 : ActorPtr) ∉ demoMap._dynamicActors ∧
    (demoMap.showDynamicActor flagActor castDynamicActor 5 30 40).1 = some 5 ∧
    (demoMap.showDynamicActor flagActor castDynamicActor 5 30 40).2.vcalls
      = [VCall.showOnMap 5 30 40] :=
  ⟨by decide,
   (showDynamicActor_fresh flagActor demoMap 5 30 40 (by decide)).1,
   (showDynamicActor_fresh flagActor demoMap 5 30 40 (by decide)).2.1⟩

/-- Claim C3: removing an actor pointer that is not a member of the registry returns null
(for every `ReturnType`), makes no virtual call (in particular no `removeFromMap`) and
leaves the registry and everything else unchanged. -/
theorem removeDynamicActor_absent (vt : DynamicActor F W) (cast : ActorPtr → Bool)
    (self : GameMap F W) (actor : ActorPtr) (h : actor ∉ self._dynamicActors) :
    self.removeDynamicActor vt cast actor = some (none, self) := by
  simp [GameMap.removeDynamicActor, h]

/-- Witness for C3 at the registry `{1, 2}` and the absent actor `5`. -/
theorem removeDynamicActor_absent_witness :
    (5 : ActorPtr) ∉ demoMap._dynamicActors ∧
    demoMap.removeDynamicActor flagActor castDynamicActor 5 = some (none, demoMap) :=
  ⟨by decide, removeDynamicActor_absent flagActor castDynamicActor demoMap 5 (by decide)⟩

/-- Claim C4: for an actor not in the registry, `showDynamicActor` followed by
`removeDynamicActor` on the same actor returns that actor from the remove and restores the
registry to the same set of members, hence to its prior size; the remove calls the actor's
`removeFromMap` once, after the `showOnMap` of the show. -/
theorem show_then_remove (vt : DynamicActor F W) (self : GameMap F W)
    (actor : ActorPtr) (x y : F) (h : actor ∉ self._dynamicActors) :
    ∃ after : GameMap F W,
      (self.showDynamicActor vt castDynamicActor actor x y).2.removeDynamicActor
          vt castDynamicActor actor = some (some actor, after) ∧
      after._dynamicActors = self._dynamicActors ∧
      after._dynamicActors.card = self._dynamicActors.card ∧
      after.stage = vt.removeFromMap actor (vt.showOnMap actor x y self.stage).2 ∧
      after.vcalls
        = self.vcalls ++ [VCall.showOnMap actor x y, VCall.removeFromMap actor] := by
  simp [GameMap.showDynamicActor, GameMap.removeDynamicActor, h, castDynamicActor,
    Finset.erase_insert]

/-- Witness for C4 at the registry `{1, 2}` and the fresh actor `5`. -/
theorem show_then_remove_witness :
    (5 : ActorPtr) ∉ demoMap._dynamicActors ∧
    ∃ after : GameMap Int (List ActorPtr),
      (demoMap.showDynamicActor flagActor castDynamicActor 5 30 40).2.removeDynamicActor
          flagActor castDynamicActor 5 = some (some 5, after) ∧
      after._dynamicActors = demoMap._dynamicActors :=
  ⟨by decide,
   (show_then_remove flagActor demoMap 5 30 40 (by decide)).imp
     (fun _ hafter => ⟨hafter.1, hafter.2.1⟩)⟩

/-- Claim C5: two `removeDynamicActor` calls in a row on the same actor: the first call
returns (an actor or null) and, whatever it returned, the second call returns null and
leaves the registry and everything else as the first call left them; after the first call
the actor is not in the registry. -/
theorem removeDynamicActor_twice (vt : DynamicActor F W) (self : GameMap F W)
    (actor : ActorPtr) :
    ∃ (first : Option ActorPtr) (mid : GameMap F W),
      self.removeDynamicActor vt castDynamicActor actor = some (first, mid) ∧
      actor ∉ mid._dynamicActors ∧
      mid.removeDynamicActor vt castDynamicActor actor = some (none, mid) := by
  by_cases h : actor ∈ self._dynamicActors
  · refine ⟨some actor,
      { _dynamicActors := self._dynamicActors.erase actor
        stage := vt.removeFromMap actor self.stage
        vcalls := self.vcalls ++ [VCall.removeFromMap actor] }, ?_, ?_, ?_⟩
    · simp [GameMap.removeDynamicActor, h, castDynamicActor]
    · simp
    · simp [GameMap.removeDynamicActor]
  · exact ⟨none, self, by simp [GameMap.removeDynamicActor, h], h,
      by simp [GameMap.removeDynamicActor, h]⟩

/-! ### Chest lemmas -/

/-- What `Chest::defineBody` does: one new body, described by `Chest.bodyFor`, is appended
to the world; the chest's `_body` is its handle; nothing else changes. -/
theorem Chest.defineBody_eq [NatCast F] (K : Constants F) (this : ActorPtr)
    (bodyType : b2BodyType) (x y : F) (categoryBits maskBits : Nat) (st : Stage F) :
    Chest.defineBody K this bodyType x y categoryBits maskBits st =
      { world := { bodies := st.world.bodies ++
          [Chest.bodyFor K this bodyType x y categoryBits maskBits] }
        layer := st.layer
        chests := Function.update st.chests this
          { st.chests this with _body := some st.world.bodies.length } } := by
  simp [Chest.defineBody, Chest.bodyFor, b2BodyBuilder.new, b2BodyBuilder.type,
    b2BodyBuilder.position, b2BodyBuilder.buildBody, b2BodyBuilder.newRectangleFixture,
    b2BodyBuilder.categoryBits, b2BodyBuilder.maskBits, b2BodyBuilder.setUserData,
    b2BodyBuilder.setSensor, b2BodyBuilder.buildFixture]

/-- `Chest::showOnMap` on a chest that is already shown: returns false, changes nothing. -/
theorem Chest.showOnMap_shown [NatCast F] (K : Constants F) (this : ActorPtr) (x y : F)
    (st : Stage F) (h : (st.chests this)._isShownOnMap = true) :
    Chest.showOnMap K this x y st = (false, st) := by
  simp [Chest.showOnMap, h]

/-- `Chest::showOnMap` on a chest that is not shown: returns true; the result state. -/
theorem Chest.showOnMap_hidden [NatCast F] (K : Constants F) (this : ActorPtr) (x y : F)
    (st : Stage F) (h : (st.chests this)._isShownOnMap = false) :
    Chest.showOnMap K this x y st = (true,
      { world := { bodies := st.world.bodies ++
          [Chest.bodyFor K this b2BodyType.b2_dynamicBody x y
            (ITEM_CATEGORY_BITS K) (ITEM_MASK_BITS K)] }
        layer := st.layer ++ [(Chest.closedSprite, K.kChest)]
        chests := Function.update st.chests this
          { st.chests this with
            _isShownOnMap := true
            _body := some st.world.bodies.length
            _bodySprite := some Chest.closedSprite } }) := by
  simp [Chest.showOnMap, h, Chest.defineBody_eq, Chest.closedSprite]

/-- The chest at address 7 of `demoShownStage` has its shown flag set. -/
theorem demoShownStage_shown : (demoShownStage.chests 7)._isShownOnMap = true := by
  simp [demoShownStage, Chest.showOnMap, demoStage, demoChest, Chest.defineBody]

/-! ### Claims C6 and C7 -/

/-- Claim C6, as stated, fails: the chest at address 7 has its shown flag set (its
`showOnMap` reports failure) and is not registered; `showDynamicActor` returns it, non-null,
and adds it to the registry. -/
theorem showDynamicActor_shown_flag_counterexample :
    (demoShownMap.stage.chests 7)._isShownOnMap = true ∧
    (Chest.showOnMap demoConstants 7 30 40 demoShownMap.stage).1 = false ∧
    (demoShownMap.showDynamicActor (chestActor demoConstants fun _ st => st)
      castDynamicActor 7 30 40).1 = some 7 ∧
    7 ∈ (demoShownMap.showDynamicActor (chestActor demoConstants fun _ st => st)
      castDynamicActor 7 30 40).2._dynamicActors := by
  refine ⟨demoShownStage_shown, ?_, ?_, ?_⟩
  · simp [demoShownMap, Chest.showOnMap_shown _ _ _ _ _ demoShownStage_shown]
  · simp [GameMap.showDynamicActor, demoShownMap, castDynamicActor]
  · simp [GameMap.showDynamicActor, demoShownMap]

/-- Claim C6, amended: for a chest whose shown flag is set, `showDynamicActor` builds
nothing: the chest's `showOnMap` reports failure and is a no-op, and the world, the layer
and the chest objects after the call are what they were.  The call returns null and leaves
the registry unchanged when the chest is a member of the registry: it is the registry
lookup, not the shown flag, that rejects. -/
theorem showDynamicActor_shown_chest [NatCast F] (K : Constants F)
    (removeFromMap : ActorPtr → Stage F → Stage F) (cast : ActorPtr → Bool)
    (self : GameMap F (Stage F)) (actor : ActorPtr) (x y : F)
    (h : (self.stage.chests actor)._isShownOnMap = true) :
    Chest.showOnMap K actor x y self.stage = (false, self.stage) ∧
    (self.showDynamicActor (chestActor K removeFromMap) cast actor x y).2.stage
      = self.stage ∧
    (actor ∈ self._dynamicActors →
      (self.showDynamicActor (chestActor K removeFromMap) cast actor x y).1 = none ∧
      (self.showDynamicActor (chestActor K removeFromMap) cast actor x y).2._dynamicActors
        = self._dynamicActors ∧
      (self.showDynamicActor (chestActor K removeFromMap) cast actor x y).2.vcalls
        = self.vcalls) := by
  have hs := Chest.showOnMap_shown K actor x y self.stage h
  refine ⟨hs, ?_, ?_⟩
  · by_cases hm : actor ∈ self._dynamicActors
    · simp [GameMap.showDynamicActor, hm]
    · simp [GameMap.showDynamicActor, hm, chestActor, hs]
  · intro hm
    simp [GameMap.showDynamicActor, hm]

/-- Witness for the amended C6: the chest at address 7 is shown and registered. -/
theorem showDynamicActor_shown_chest_witness :
    (demoRegisteredMap.stage.chests 7)._isShownOnMap = true ∧
    (7 : ActorPtr) ∈ demoRegisteredMap._dynamicActors ∧
    (demoRegisteredMap.showDynamicActor
      (chestActor demoConstants fun _ st => st) castDynamicActor 7 30 40).1 = none :=
  ⟨demoShownStage_shown, by decide,
   ((showDynamicActor_shown_chest demoConstants (fun _ st => st) castDynamicActor
      demoRegisteredMap 7 30 40 demoShownStage_shown).2.2 (by decide)).1⟩

/-- Claim C7: `Chest::showOnMap` returns true exactly when the chest was not shown before
the call.  In that case it sets the shown flag and builds the chest's body (one dynamic body
at `(x, y)` with its two fixtures, appended to the world), records the body handle and the
sprite, adds the sprite to the layer and touches no other chest.  On a chest that is already
shown it returns false and changes nothing.  Hence a second call, with any position, after
any call returns false and changes nothing. -/
theorem Chest.showOnMap_idempotent [NatCast F] (K : Constants F) (this : ActorPtr) (x y : F)
    (st : Stage F) :
    ((Chest.showOnMap K this x y st).1 = true ↔ (st.chests this)._isShownOnMap = false) ∧
    ((st.chests this)._isShownOnMap = false →
      ((Chest.showOnMap K this x y st).2.chests this)._isShownOnMap = true ∧
      ((Chest.showOnMap K this x y st).2.chests this)._body = some st.world.bodies.length ∧
      ((Chest.showOnMap K this x y st).2.chests this)._bodySprite
        = some Chest.closedSprite ∧
      (Chest.showOnMap K this x y st).2.world.bodies = st.world.bodies ++
        [Chest.bodyFor K this b2BodyType.b2_dynamicBody x y
          (ITEM_CATEGORY_BITS K) (ITEM_MASK_BITS K)] ∧
      (Chest.showOnMap K this x y st).2.layer
        = st.layer ++ [(Chest.closedSprite, K.kChest)] ∧
      (∀ other : ActorPtr, other ≠ this →
        (Chest.showOnMap K this x y st).2.chests other = st.chests other)) ∧
    ((st.chests this)._isShownOnMap = true →
      Chest.showOnMap K this x y st = (false, st)) ∧
    (∀ x2 y2 : F, Chest.showOnMap K this x2 y2 (Chest.showOnMap K this x y st).2
      = (false, (Chest.showOnMap K this x y st).2)) := by
  cases h : (st.chests this)._isShownOnMap with
  | false =>
    have hh := Chest.showOnMap_hidden K this x y st h
    refine ⟨by simp [hh], ?_, by simp, ?_⟩
    · intro _
      rw [hh]
      refine ⟨by simp, by simp, by simp, rfl, rfl, ?_⟩
      intro other ho
      simp [Function.update_noteq ho]
    · intro x2 y2
      apply Chest.showOnMap_shown
      rw [hh]
      simp
  | true =>
    have hs := Chest.showOnMap_shown K this x y st h
    refine ⟨by simp [hs], by simp, fun _ => hs, ?_⟩
    intro x2 y2
    rw [hs]
    exact Chest.showOnMap_shown K this x2 y2 st h

/-- Witness for C7: a fresh chest at address 7 is shown (true, one body), and the chest of
`demoShownStage` is refused. -/
theorem Chest.showOnMap_idempotent_witness :
    (demoStage.chests 7)._isShownOnMap = false ∧
    (Chest.showOnMap demoConstants 7 30 40 demoStage).2.world.bodies.length = 1 ∧
    Chest.showOnMap demoConstants 7 1 2 demoShownStage = (false, demoShownStage) :=
  ⟨rfl,
   by rw [((Chest.showOnMap_idempotent demoConstants 7 30 40 demoStage).2.1 rfl).2.2.2.1]; rfl,
   (Chest.showOnMap_idempotent demoConstants 7 30 40 demoStage).2.2.2 1 2⟩

/-! ### Static geometry lemmas -/

section loading

open Classes

/-- A run bound to a continuation is done exactly when both parts are. -/
theorem Run.bind_eq_done {σ : Type} (r : Run σ) (f : σ → Run σ) (s2 : σ) :
    r.bind f = Run.done s2 ↔ ∃ s1, r = Run.done s1 ∧ f s1 = Run.done s2 := by
  cases r <;> simp [Run.bind]

/-- One pass of the loop of `createRectangles` appends exactly one body. -/
theorem Classes.createRectangle_eq [Add F] [Div F] [NatCast F] (kPpm : F)
    (categoryBits : Nat) (isCollidable : Bool) (friction : F) (world : b2World F)
    (obj : TMXObject F) :
    createRectangle kPpm categoryBits isCollidable friction world obj =
      { bodies := world.bodies ++
          [rectangleBody kPpm categoryBits isCollidable friction obj] } := by
  simp [createRectangle, rectangleBody, b2BodyBuilder.new, b2BodyBuilder.type,
    b2BodyBuilder.position, b2BodyBuilder.buildBody, b2BodyBuilder.newRectangleFixture,
    b2BodyBuilder.categoryBits, b2BodyBuilder.setSensor, b2BodyBuilder.friction,
    b2BodyBuilder.buildFixture]

/-- The loop of `createRectangles` appends one body per object, in order. -/
theorem Classes.createRectangle_foldl [Add F] [Div F] [NatCast F] (kPpm : F)
    (categoryBits : Nat) (isCollidable : Bool) (friction : F)
    (objects : List (TMXObject F)) (world : b2World F) :
    objects.foldl (createRectangle kPpm categoryBits isCollidable friction) world =
      { bodies := world.bodies ++
          objects.map (rectangleBody kPpm categoryBits isCollidable friction) } := by
  induction objects generalizing world with
  | nil => simp
  | cons obj rest ih => simp [List.foldl_cons, ih, createRectangle_eq]

/-- `createRectangles` returns exactly when the group exists, with one body per object. -/
theorem Classes.createRectangles_eq_done [Add F] [Div F] [NatCast F] (kPpm : F)
    (map : TMXTiledMap F)
    (layerName : String) (categoryBits : Nat) (isCollidable : Bool) (friction : F)
    (world after : b2World F) :
    createRectangles kPpm map layerName categoryBits isCollidable friction world
        = Run.done after ↔
      ∃ objects, map.getObjectGroup layerName = some objects ∧
        after = { bodies := world.bodies ++
          objects.map (rectangleBody kPpm categoryBits isCollidable friction) } := by
  unfold createRectangles
  cases h : map.getObjectGroup layerName with
  | none => simp
  | some objects =>
    simp only [createRectangle_foldl, Run.done.injEq, Option.some.injEq, exists_eq_left']
    exact eq_comm

/-- The loop of `createPolylines` returns exactly when every object has polyline points,
with one body per object, in order. -/
theorem Classes.createPolylinesLoop_eq_done [Add F] [Sub F] [Div F] [NatCast F]
    (kPpm scaleFactor : F) (categoryBits : Nat)
    (isCollidable : Bool) (friction : F) (objects : List (TMXObject F))
    (world after : b2World F) :
    createPolylinesLoop kPpm scaleFactor categoryBits isCollidable friction objects world
        = Run.done after ↔
      (objects.all fun obj => obj.polylinePoints.isSome) = true ∧
        after = { bodies := world.bodies ++
          objects.map (polylineBody kPpm scaleFactor categoryBits isCollidable friction) } := by
  induction objects generalizing world with
  | nil => simp [createPolylinesLoop, eq_comm]
  | cons obj rest ih =>
    cases hp : obj.polylinePoints with
    | none => simp [createPolylinesLoop, hp]
    | some valVec =>
      simp [createPolylinesLoop, hp, ih, polylineBody, b2BodyBuilder.new, b2BodyBuilder.type,
        b2BodyBuilder.position, b2BodyBuilder.buildBody, b2BodyBuilder.newPolylineFixture,
        b2BodyBuilder.categoryBits, b2BodyBuilder.setSensor, b2BodyBuilder.friction,
        b2BodyBuilder.buildFixture]

/-- `createPolylines` returns exactly when the group exists and holds polylines only. -/
theorem Classes.createPolylines_eq_done [Add F] [Sub F] [Div F] [NatCast F]
    (kPpm scaleFactor : F) (map : TMXTiledMap F)
    (layerName : String) (categoryBits : Nat) (isCollidable : Bool) (friction : F)
    (world after : b2World F) :
    createPolylines kPpm scaleFactor map layerName categoryBits isCollidable friction world
        = Run.done after ↔
      map.polylineGroup layerName = true ∧
        after = { bodies := world.bodies ++ (List.map
          (polylineBody kPpm scaleFactor categoryBits isCollidable friction)
          ((map.getObjectGroup layerName).getD [])) } := by
  unfold createPolylines TMXTiledMap.polylineGroup
  cases h : map.getObjectGroup layerName with
  | none => simp
  | some objects => simp [createPolylinesLoop_eq_done]

end loading

/-- The static-geometry step of `load` returns exactly on a map that has the five static
layers in the level format; the world has then gained the bodies of `staticBody` for the
authored objects, in order, and nothing else. -/
theorem Classes.createStaticGeometry_eq_done [Add F] [Sub F] [Div F] [NatCast F]
    (E : Classes.Env F) (map : TMXTiledMap F) (world after : b2World F) :
    Classes.createStaticGeometry E map world = Run.done after ↔
      map.hasStaticLayers = true ∧
        after = { bodies := world.bodies ++ map.staticObjects.map (Classes.staticBody E) } := by
  unfold Classes.createStaticGeometry
  simp only [Run.bind_eq_done, Classes.createPolylines_eq_done,
    Classes.createRectangles_eq_done]
  constructor
  · rintro ⟨w4, ⟨w3, ⟨w2, ⟨w1, ⟨hg, rfl⟩, hw, rfl⟩, ⟨po, hpo, rfl⟩⟩, ⟨pt, hpt, rfl⟩⟩, hc, rfl⟩
    refine ⟨by simp [TMXTiledMap.hasStaticLayers, hg, hw, hpo, hpt, hc], ?_⟩
    simp [TMXTiledMap.staticObjects, StaticLayer.objects, StaticLayer.groupName, hpo, hpt,
      List.map_map, Function.comp_def, Classes.staticBody]
  · rintro ⟨hl, rfl⟩
    simp only [TMXTiledMap.hasStaticLayers, Bool.and_eq_true, Option.isSome_iff_exists] at hl
    obtain ⟨⟨⟨⟨hg, hw⟩, po, hpo⟩, pt, hpt⟩, hc⟩ := hl
    refine ⟨_, ⟨_, ⟨_, ⟨_, ⟨hg, rfl⟩, hw, rfl⟩, ⟨po, hpo, rfl⟩⟩, ⟨pt, hpt, rfl⟩⟩, hc, ?_⟩
    simp [TMXTiledMap.staticObjects, StaticLayer.objects, StaticLayer.groupName, hpo, hpt,
      List.map_map, Function.comp_def, Classes.staticBody]

/-- Every body of `staticBody` is built as the claim requires of its layer. -/
theorem Classes.staticBody_builtAs [Add F] [Sub F] [Div F] [NatCast F]
    (E : Classes.Env F) (p : StaticLayer × TMXObject F) :
    StaticLayer.builtAs E.K p (Classes.staticBody E p) := by
  obtain ⟨layer, obj⟩ := p
  cases layer <;>
    simp [StaticLayer.builtAs, Classes.staticBody, polylineBody, rectangleBody,
      StaticLayer.categoryBits, StaticLayer.collidable, StaticLayer.friction]

/-! ### Claim C8 -/

/-- Claim C8: whenever the static-geometry step of `load` returns, the world has gained
exactly one body per authored object of the five layers, in order, and nothing else; each
is a static body with exactly one fixture whose category bits are those of the object's
layer, whose sensor flag is the negation of the layer's collidable flag and whose friction
is the layer's.  The step returns on every map in the level format (the five groups exist
and `Ground`, `Wall`, `CliffMarker` hold polylines). -/
theorem Classes.createStaticGeometry_bodies [Add F] [Sub F] [Div F] [NatCast F]
    (E : Classes.Env F) (map : TMXTiledMap F) (world : b2World F) :
    (map.hasStaticLayers = true →
      ∃ after, Classes.createStaticGeometry E map world = Run.done after) ∧
    (∀ after, Classes.createStaticGeometry E map world = Run.done after →
      ∃ gained : List (b2Body F),
        after.bodies = world.bodies ++ gained ∧
        gained.length = map.staticObjects.length ∧
        List.Forall₂ (StaticLayer.builtAs E.K) map.staticObjects gained) := by
  constructor
  · intro hl
    exact ⟨_, (Classes.createStaticGeometry_eq_done E map world _).2 ⟨hl, rfl⟩⟩
  · intro after h
    obtain ⟨_, rfl⟩ := (Classes.createStaticGeometry_eq_done E map world after).1 h
    refine ⟨map.staticObjects.map (Classes.staticBody E), rfl, by simp, ?_⟩
    rw [List.forall₂_map_right_iff, List.forall₂_same]
    intro p _
    exact Classes.staticBody_builtAs E p

/-- Witness for C8: the level `demoLevel` is in the level format; the step returns on it
and the empty world gains six bodies. -/
theorem Classes.createStaticGeometry_bodies_witness :
    demoLevel.hasStaticLayers = true ∧
    (∃ after, Classes.createStaticGeometry demoEnv demoLevel { bodies := [] }
      = Run.done after) ∧
    demoLevel.staticObjects.length = 6 :=
  ⟨by decide,
   (Classes.createStaticGeometry_bodies demoEnv demoLevel { bodies := [] }).1 (by decide),
   by decide⟩

/-! ### Loading lemmas -/

/-- The children of the layer after the first two statements of `load`. -/
theorem Classes.load_parse_fault [Add F] [Sub F] [Div F] [NatCast F] [DecidableEq F]
    (E : Classes.Env F) (file : String) (self : Classes.GameMapManager F)
    (h : E.create file = none) :
    Classes.GameMapManager.load E file self =
      Run.fault { self with _map := none, children := self.detached } := by
  rcases self with ⟨w, m, pl, cs, it, ch⟩
  cases m <;> simp [Classes.GameMapManager.load, Classes.GameMapManager.detached, h]

/-- `load` on a file that parses, when the static-geometry step stops. -/
theorem Classes.load_geometry_fault [Add F] [Sub F] [Div F] [NatCast F] [DecidableEq F]
    (E : Classes.Env F) (file : String) (self : Classes.GameMapManager F)
    (map : TMXTiledMap F) (world : b2World F) (h : E.create file = some map)
    (hg : Classes.createStaticGeometry E map self._world = Run.fault world) :
    Classes.GameMapManager.load E file self =
      Run.fault { self with
        _map := some map
        children := self.detached ++ [(Classes.Node.map map, some 0)]
        _world := world } := by
  rcases self with ⟨w, m, pl, cs, it, ch⟩
  cases m <;> simp_all [Classes.GameMapManager.load, Classes.GameMapManager.detached]

/-- `load` on a file that parses, when the geometry is built and the spawn point is
missing. -/
theorem Classes.load_spawn_fault [Add F] [Sub F] [Div F] [NatCast F] [DecidableEq F]
    (E : Classes.Env F) (file : String) (self : Classes.GameMapManager F)
    (map : TMXTiledMap F) (world : b2World F) (h : E.create file = some map)
    (hg : Classes.createStaticGeometry E map self._world = Run.done world)
    (hs : map.hasSpawnPoint = false) :
    Classes.GameMapManager.load E file self =
      Run.fault { self with
        _map := some map
        children := self.detached ++ [(Classes.Node.map map, some 0)]
        _world := world } := by
  have hsp : ∀ (w : b2World F) (pl : Option (Classes.Player F))
      (cs : List (Classes.Character F)) (it : List Classes.Equipment)
      (ch : List (Classes.Node F × Option Int)),
      Classes.GameMapManager.spawnPlayer
        { _world := w, _map := some map, _player := pl, _characters := cs, _items := it,
          children := ch } = none := by
    intro w pl cs it ch
    unfold TMXTiledMap.hasSpawnPoint at hs
    unfold Classes.GameMapManager.spawnPlayer
    cases hp : map.getObjectGroup "Player" with
    | none => simp [hp]
    | some objects =>
      cases objects with
      | nil => simp [hp]
      | cons o r => simp [hp] at hs
  rcases self with ⟨w, m, pl, cs, it, ch⟩
  cases m <;> simp_all [Classes.GameMapManager.load, Classes.GameMapManager.detached]

/-- `load` on a file that parses, when the geometry is built and the spawn point exists:
it returns, with the player built at the spawn point. -/
theorem Classes.load_done [Add F] [Sub F] [Div F] [NatCast F] [DecidableEq F]
    (E : Classes.Env F) (file : String) (self : Classes.GameMapManager F)
    (map : TMXTiledMap F) (world : b2World F) (spawn : TMXObject F)
    (rest : List (TMXObject F)) (h : E.create file = some map)
    (hg : Classes.createStaticGeometry E map self._world = Run.done world)
    (hs : map.getObjectGroup "Player" = some (spawn :: rest)) :
    ∃ after, Classes.GameMapManager.load E file self = Run.done after ∧
      after._map = some map ∧
      after._world = world ∧
      after._player = some { name := "Aesophor", x := spawn.x, y := spawn.y } ∧
      after._characters = self._characters ++
        [Classes.Character.player { name := "Aesophor", x := spawn.x, y := spawn.y },
         Classes.Character.enemy
           { name := "Castle Guard", x := ((300 : Nat) : F), y := ((100 : Nat) : F) }] ∧
      after._items = self._items ++ Classes.rustyAxes E 0 10 := by
  rcases self with ⟨w, m, pl, cs, it, ch⟩
  cases m <;>
    simp_all [Classes.GameMapManager.load, Classes.GameMapManager.spawnPlayer]

/-- The loop of `createPolylines` only appends bodies, whether it returns or stops: one per
object up to the first object without polyline points. -/
theorem Classes.createPolylinesLoop_grows [Add F] [Sub F] [Div F] [NatCast F]
    (kPpm scaleFactor : F) (categoryBits : Nat) (isCollidable : Bool) (friction : F)
    (objects : List (TMXObject F)) (world : b2World F) :
    ∃ gained, (Classes.createPolylinesLoop kPpm scaleFactor categoryBits isCollidable
      friction objects world).state.bodies = world.bodies ++ gained := by
  refine ⟨(objects.takeWhile fun obj => obj.polylinePoints.isSome).map
    (polylineBody kPpm scaleFactor categoryBits isCollidable friction), ?_⟩
  induction objects generalizing world with
  | nil => simp [Classes.createPolylinesLoop, Run.state]
  | cons obj rest ih =>
    cases hp : obj.polylinePoints with
    | none => simp [Classes.createPolylinesLoop, hp, Run.state, List.takeWhile]
    | some valVec =>
      simp [Classes.createPolylinesLoop, hp, ih, List.takeWhile, polylineBody,
        b2BodyBuilder.new, b2BodyBuilder.type,
        b2BodyBuilder.position, b2BodyBuilder.buildBody, b2BodyBuilder.newPolylineFixture,
        b2BodyBuilder.categoryBits, b2BodyBuilder.setSensor, b2BodyBuilder.friction,
        b2BodyBuilder.buildFixture]

/-- `createPolylines` only appends bodies, whether it returns or stops. -/
theorem Classes.createPolylines_grows [Add F] [Sub F] [Div F] [NatCast F]
    (kPpm scaleFactor : F) (map : TMXTiledMap F) (layerName : String) (categoryBits : Nat)
    (isCollidable : Bool) (friction : F) (world : b2World F) :
    ∃ gained, (Classes.createPolylines kPpm scaleFactor map layerName categoryBits
      isCollidable friction world).state.bodies = world.bodies ++ gained := by
  unfold Classes.createPolylines
  cases map.getObjectGroup layerName with
  | none => exact ⟨[], by simp [Run.state]⟩
  | some objects => exact Classes.createPolylinesLoop_grows _ _ _ _ _ _ _

/-- `createRectangles` only appends bodies, whether it returns or stops. -/
theorem Classes.createRectangles_grows [Add F] [Div F] [NatCast F]
    (kPpm : F) (map : TMXTiledMap F) (layerName : String) (categoryBits : Nat)
    (isCollidable : Bool) (friction : F) (world : b2World F) :
    ∃ gained, (Classes.createRectangles kPpm map layerName categoryBits
      isCollidable friction world).state.bodies = world.bodies ++ gained := by
  unfold Classes.createRectangles
  cases map.getObjectGroup layerName with
  | none => exact ⟨[], by simp [Run.state]⟩
  | some objects =>
    exact ⟨objects.map (rectangleBody kPpm categoryBits isCollidable friction),
      by simp only [Run.state, Classes.createRectangle_foldl]⟩

/-- Sequencing two runs that only append bodies only appends bodies. -/
theorem Run.bind_grows (r : Run (b2World F)) (f : b2World F → Run (b2World F))
    (world : b2World F) (hr : ∃ gained, r.state.bodies = world.bodies ++ gained)
    (hf : ∀ w, ∃ gained, (f w).state.bodies = w.bodies ++ gained) :
    ∃ gained, (r.bind f).state.bodies = world.bodies ++ gained := by
  obtain ⟨g1, h1⟩ := hr
  cases r with
  | fault s => exact ⟨g1, h1⟩
  | done s =>
    obtain ⟨g2, h2⟩ := hf s
    refine ⟨g1 ++ g2, ?_⟩
    simp only [Run.bind, h2]
    simp only [Run.state] at h1
    rw [h1, List.append_assoc]

/-- The static-geometry step only appends bodies, whether it returns or stops. -/
theorem Classes.createStaticGeometry_grows [Add F] [Sub F] [Div F] [NatCast F]
    (E : Classes.Env F) (map : TMXTiledMap F) (world : b2World F) :
    ∃ gained, (Classes.createStaticGeometry E map world).state.bodies
      = world.bodies ++ gained := by
  unfold Classes.createStaticGeometry
  refine Run.bind_grows _ _ _ (Run.bind_grows _ _ _ (Run.bind_grows _ _ _
    (Run.bind_grows _ _ _ (Classes.createPolylines_grows _ _ _ _ _ _ _ _) ?_) ?_) ?_) ?_
  · intro w; exact Classes.createPolylines_grows _ _ _ _ _ _ _ _
  · intro w; exact Classes.createRectangles_grows _ _ _ _ _ _ _
  · intro w; exact Classes.createRectangles_grows _ _ _ _ _ _ _
  · intro w; exact Classes.createPolylines_grows _ _ _ _ _ _ _ _

/-- A map with a spawn point has a first object in its `Player` group. -/
theorem TMXTiledMap.hasSpawnPoint_iff (map : TMXTiledMap F) :
    map.hasSpawnPoint = true ↔
      ∃ spawn rest, map.getObjectGroup "Player" = some (spawn :: rest) := by
  unfold TMXTiledMap.hasSpawnPoint
  cases map.getObjectGroup "Player" with
  | none => simp
  | some objects => cases objects <;> simp

/-! ### The geometry built when the step stops -/

/-- The loop of `createPolylines`, returning or stopping, has appended one body per object
up to the first object without polyline points. -/
theorem Classes.createPolylinesLoop_state [Add F] [Sub F] [Div F] [NatCast F]
    (kPpm scaleFactor : F) (categoryBits : Nat) (isCollidable : Bool) (friction : F)
    (objects : List (TMXObject F)) (world : b2World F) :
    (Classes.createPolylinesLoop kPpm scaleFactor categoryBits isCollidable
      friction objects world).state.bodies = world.bodies ++
        (objects.takeWhile fun obj => obj.polylinePoints.isSome).map
          (polylineBody kPpm scaleFactor categoryBits isCollidable friction) := by
  induction objects generalizing world with
  | nil => simp [Classes.createPolylinesLoop, Run.state]
  | cons obj rest ih =>
    cases hp : obj.polylinePoints with
    | none => simp [Classes.createPolylinesLoop, hp, Run.state, List.takeWhile]
    | some valVec =>
      simp [Classes.createPolylinesLoop, hp, ih, List.takeWhile, polylineBody,
        b2BodyBuilder.new, b2BodyBuilder.type,
        b2BodyBuilder.position, b2BodyBuilder.buildBody, b2BodyBuilder.newPolylineFixture,
        b2BodyBuilder.categoryBits, b2BodyBuilder.setSensor, b2BodyBuilder.friction,
        b2BodyBuilder.buildFixture]

/-- The loop of `createPolylines` stops exactly when an object has no polyline points. -/
theorem Classes.createPolylinesLoop_isFault [Add F] [Sub F] [Div F] [NatCast F]
    (kPpm scaleFactor : F) (categoryBits : Nat) (isCollidable : Bool) (friction : F)
    (objects : List (TMXObject F)) (world : b2World F) :
    (Classes.createPolylinesLoop kPpm scaleFactor categoryBits isCollidable
      friction objects world).isFault
        = !(objects.all fun obj => obj.polylinePoints.isSome) := by
  induction objects generalizing world with
  | nil => simp [Classes.createPolylinesLoop, Run.isFault]
  | cons obj rest ih =>
    cases hp : obj.polylinePoints with
    | none => simp [Classes.createPolylinesLoop, hp, Run.isFault]
    | some valVec => simp [Classes.createPolylinesLoop, hp, ih]

/-- The bodies in the world after `createPolylines`, returned or stopped. -/
theorem Classes.createPolylines_state [Add F] [Sub F] [Div F] [NatCast F]
    (kPpm scaleFactor : F) (map : TMXTiledMap F) (layerName : String) (categoryBits : Nat)
    (isCollidable : Bool) (friction : F) (world : b2World F) :
    (Classes.createPolylines kPpm scaleFactor map layerName categoryBits
      isCollidable friction world).state.bodies = world.bodies ++
        (((map.getObjectGroup layerName).getD []).takeWhile
          fun obj => obj.polylinePoints.isSome).map
          (polylineBody kPpm scaleFactor categoryBits isCollidable friction) := by
  unfold Classes.createPolylines
  cases map.getObjectGroup layerName with
  | none => simp [Run.state]
  | some objects => simpa using Classes.createPolylinesLoop_state _ _ _ _ _ objects world

/-- `createPolylines` stops exactly when the group is not a group of polylines. -/
theorem Classes.createPolylines_isFault [Add F] [Sub F] [Div F] [NatCast F]
    (kPpm scaleFactor : F) (map : TMXTiledMap F) (layerName : String) (categoryBits : Nat)
    (isCollidable : Bool) (friction : F) (world : b2World F) :
    (Classes.createPolylines kPpm scaleFactor map layerName categoryBits
      isCollidable friction world).isFault = !map.polylineGroup layerName := by
  unfold Classes.createPolylines TMXTiledMap.polylineGroup
  cases map.getObjectGroup layerName with
  | none => simp [Run.isFault]
  | some objects => simpa using Classes.createPolylinesLoop_isFault _ _ _ _ _ objects world

/-- The bodies in the world after `createRectangles`, returned or stopped. -/
theorem Classes.createRectangles_state [Add F] [Div F] [NatCast F]
    (kPpm : F) (map : TMXTiledMap F) (layerName : String) (categoryBits : Nat)
    (isCollidable : Bool) (friction : F) (world : b2World F) :
    (Classes.createRectangles kPpm map layerName categoryBits
      isCollidable friction world).state.bodies = world.bodies ++
        ((map.getObjectGroup layerName).getD []).map
          (rectangleBody kPpm categoryBits isCollidable friction) := by
  unfold Classes.createRectangles
  cases map.getObjectGroup layerName with
  | none => simp [Run.state]
  | some objects => simp [Run.state, Classes.createRectangle_foldl]

/-- `createRectangles` stops exactly when the group is missing. -/
theorem Classes.createRectangles_isFault [Add F] [Div F] [NatCast F]
    (kPpm : F) (map : TMXTiledMap F) (layerName : String) (categoryBits : Nat)
    (isCollidable : Bool) (friction : F) (world : b2World F) :
    (Classes.createRectangles kPpm map layerName categoryBits
      isCollidable friction world).isFault = !(map.getObjectGroup layerName).isSome := by
  unfold Classes.createRectangles
  cases map.getObjectGroup layerName with
  | none => simp [Run.isFault]
  | some objects => simp [Run.isFault]

/-- Sequencing a run with a step: the bodies appended and whether the whole stopped. -/
theorem Run.bind_built (r : Run (b2World F)) (f : b2World F → Run (b2World F))
    (world : b2World F) (built1 built2 : List (b2Body F)) (complete1 complete2 : Bool)
    (hr : r.state.bodies = world.bodies ++ built1) (hrf : r.isFault = !complete1)
    (hf : ∀ w, (f w).state.bodies = w.bodies ++ built2)
    (hff : ∀ w, (f w).isFault = !complete2) :
    (r.bind f).state.bodies
        = world.bodies ++ (built1 ++ if complete1 then built2 else []) ∧
      (r.bind f).isFault = !(complete1 && complete2) := by
  cases r with
  | fault s =>
    have hc : complete1 = false := by simpa [Run.isFault] using hrf
    subst hc
    simpa [Run.bind, Run.isFault] using hr
  | done s =>
    have hc : complete1 = true := by simpa [Run.isFault] using hrf
    subst hc
    simp only [Run.state] at hr
    simp [Run.bind, hf, hff, hr]

/-- The static-geometry step of `load`, returned or stopped, has appended exactly the
bodies of `geometryBuilt` for the five layers. -/
theorem Classes.createStaticGeometry_state [Add F] [Sub F] [Div F] [NatCast F]
    (E : Classes.Env F) (map : TMXTiledMap F) (world : b2World F) :
    (Classes.createStaticGeometry E map world).state.bodies
      = world.bodies ++ Classes.geometryBuilt E map StaticLayer.all := by
  have h1 := Run.bind_built _
    (Classes.createPolylines E.K.kPpm E.scaleFactor map "Wall" E.K.kWall true ((1 : Nat) : F))
    world _ _ _ _
    (Classes.createPolylines_state E.K.kPpm E.scaleFactor map "Ground" E.K.kGround true
      ((2 : Nat) : F) world)
    (Classes.createPolylines_isFault _ _ _ _ _ _ _ _)
    (fun w => Classes.createPolylines_state _ _ _ _ _ _ _ w)
    (fun w => Classes.createPolylines_isFault _ _ _ _ _ _ _ w)
  have h2 := Run.bind_built _
    (Classes.createRectangles E.K.kPpm map "Platform" E.K.kPlatform true ((2 : Nat) : F))
    world _ _ _ _ h1.1 h1.2
    (fun w => Classes.createRectangles_state _ _ _ _ _ _ w)
    (fun w => Classes.createRectangles_isFault _ _ _ _ _ _ w)
  have h3 := Run.bind_built _
    (Classes.createRectangles E.K.kPpm map "Portal" E.K.kPortal false ((0 : Nat) : F))
    world _ _ _ _ h2.1 h2.2
    (fun w => Classes.createRectangles_state _ _ _ _ _ _ w)
    (fun w => Classes.createRectangles_isFault _ _ _ _ _ _ w)
  have h4 := Run.bind_built _
    (Classes.createPolylines E.K.kPpm E.scaleFactor map "CliffMarker" E.K.kCliffMarker false
      ((0 : Nat) : F))
    world _ _ _ _ h3.1 h3.2
    (fun w => Classes.createPolylines_state _ _ _ _ _ _ _ w)
    (fun w => Classes.createPolylines_isFault _ _ _ _ _ _ _ w)
  unfold Classes.createStaticGeometry
  rw [h4.1]
  congr 1
  simp only [StaticLayer.all, Classes.geometryBuilt, Classes.layerBuilt,
    TMXTiledMap.layerComplete, StaticLayer.isPolyline, StaticLayer.groupName,
    StaticLayer.objects, Classes.staticBody, if_true, Bool.false_eq_true, if_false]
  cases map.polylineGroup "Ground" <;> cases map.polylineGroup "Wall" <;>
    cases (map.getObjectGroup "Platform").isSome <;>
    cases (map.getObjectGroup "Portal").isSome <;> simp

/-! ### Claims C9 and C10 -/

/-- Claim C9, as stated, fails.  With `demoLevel` active, loading a file that cannot be
parsed stops with the manager's current map null, not the previous map; loading a level
whose `Player` group is empty stops with the new map installed and six more bodies in the
world. -/
theorem Classes.load_failure_counterexample :
    demoLoaded._map = some demoLevel ∧
    demoLoaded._world.bodies.length = 6 ∧
    (Classes.GameMapManager.load demoEnv "missing.tmx" demoLoaded).isFault = true ∧
    (Classes.GameMapManager.load demoEnv "missing.tmx" demoLoaded).state._map = none ∧
    (Classes.GameMapManager.load demoEnv "nospawn.tmx" demoLoaded).isFault = true ∧
    (Classes.GameMapManager.load demoEnv "nospawn.tmx" demoLoaded).state._map
      = some demoLevelNoSpawn ∧
    (Classes.GameMapManager.load demoEnv "nospawn.tmx" demoLoaded).state._world.bodies.length
      = 12 := by
  decide

/-- On a map in the level format for the static layers, the geometry built is one body per
authored object of the five layers. -/
theorem Classes.geometryBuilt_complete [Add F] [Sub F] [Div F] [NatCast F]
    (E : Classes.Env F) (map : TMXTiledMap F) (h : map.hasStaticLayers = true) :
    Classes.geometryBuilt E map StaticLayer.all
      = map.staticObjects.map (Classes.staticBody E) := by
  have hdone := (Classes.createStaticGeometry_eq_done E map { bodies := [] } _).2 ⟨h, rfl⟩
  have hstate := Classes.createStaticGeometry_state E map { bodies := [] }
  rw [hdone] at hstate
  simpa [Run.state] using hstate.symm

/-- Claim C9, amended: `load` fails exactly when the file cannot be parsed, the map is not
in the level format for the static layers, or its `Player` group has no object; it then
stops without returning.  At that point the player, the characters and the items are
exactly what they were before the call, and the bodies of the world are the bodies it had,
followed by exactly the static geometry built before the stop: one body per authored
object, layer by layer in the order of `load`, up to the first missing group or the first
object of a polyline layer without polyline points (none when the file cannot be parsed,
all of the map's static geometry when the stop is at the spawn point).  The previous map
node has been removed from the layer and the manager's current map is the parse result
(null when the file cannot be parsed). -/
theorem Classes.load_fault_state [Add F] [Sub F] [Div F] [NatCast F] [DecidableEq F]
    (E : Classes.Env F) (file : String) (self : Classes.GameMapManager F) :
    ((Classes.GameMapManager.load E file self).isFault = true ↔
      ∀ map, E.create file = some map →
        (map.hasStaticLayers && map.hasSpawnPoint) = false) ∧
    (∀ stopped, Classes.GameMapManager.load E file self = Run.fault stopped →
      stopped._player = self._player ∧
      stopped._characters = self._characters ∧
      stopped._items = self._items ∧
      stopped._map = E.create file ∧
      stopped.children = self.detached ++
        (E.create file).toList.map (fun m => (Classes.Node.map m, some 0)) ∧
      stopped._world.bodies = self._world.bodies ++ Classes.builtFor E file) ∧
    (∀ map, E.create file = some map → map.hasStaticLayers = true →
      Classes.builtFor E file = map.staticObjects.map (Classes.staticBody E)) := by
  have hbuilt : ∀ map, E.create file = some map →
      Classes.builtFor E file = Classes.geometryBuilt E map StaticLayer.all := by
    intro map hm
    simp [Classes.builtFor, hm]
  have hnone : E.create file = none → Classes.builtFor E file = [] := by
    intro hm
    simp [Classes.builtFor, hm]
  refine ⟨?_, ?_, ?_⟩
  · cases hc : E.create file with
    | none =>
      rw [Classes.load_parse_fault E file self hc]
      simp [Run.isFault]
    | some map =>
      cases hl : map.hasStaticLayers with
      | false =>
        cases hg : Classes.createStaticGeometry E map self._world with
        | fault world =>
          rw [Classes.load_geometry_fault E file self map world hc hg]
          simp [Run.isFault, hl]
        | done world =>
          have := ((Classes.createStaticGeometry_eq_done E map self._world world).1 hg).1
          rw [hl] at this
          cases this
      | true =>
        have hg := (Classes.createStaticGeometry_eq_done E map self._world _).2 ⟨hl, rfl⟩
        cases hs : map.hasSpawnPoint with
        | false =>
          rw [Classes.load_spawn_fault E file self map _ hc hg hs]
          simp [Run.isFault, hl, hs]
        | true =>
          obtain ⟨spawn, rest, hp⟩ := (TMXTiledMap.hasSpawnPoint_iff map).1 hs
          obtain ⟨after, hafter, _⟩ :=
            Classes.load_done E file self map _ spawn rest hc hg hp
          rw [hafter]
          simp [Run.isFault, hl, hs]
  · intro stopped hstop
    cases hc : E.create file with
    | none =>
      rw [Classes.load_parse_fault E file self hc] at hstop
      cases hstop
      exact ⟨rfl, rfl, rfl, rfl, by simp, by simp [hnone hc]⟩
    | some map =>
      have hstate := Classes.createStaticGeometry_state E map self._world
      rw [← hbuilt map hc] at hstate
      cases hg : Classes.createStaticGeometry E map self._world with
      | fault world =>
        rw [Classes.load_geometry_fault E file self map world hc hg] at hstop
        cases hstop
        rw [hg] at hstate
        exact ⟨rfl, rfl, rfl, rfl, by simp, hstate⟩
      | done world =>
        rw [hg] at hstate
        cases hs : map.hasSpawnPoint with
        | false =>
          rw [Classes.load_spawn_fault E file self map world hc hg hs] at hstop
          cases hstop
          exact ⟨rfl, rfl, rfl, rfl, by simp, hstate⟩
        | true =>
          obtain ⟨spawn, rest, hp⟩ := (TMXTiledMap.hasSpawnPoint_iff map).1 hs
          obtain ⟨after, hafter, _⟩ :=
            Classes.load_done E file self map world spawn rest hc hg hp
          rw [hafter] at hstop
          cases hstop
  · intro map hm hl
    rw [hbuilt map hm]
    exact Classes.geometryBuilt_complete E map hl

/-- Witness for the amended C9: loading `brokenwall.tmx` from a fresh manager stops in the
`Wall` layer; the world then holds exactly the three bodies built before the stop (two
ground polylines, one wall polyline), and the player is unchanged. -/
theorem Classes.load_fault_state_witness :
    Classes.GameMapManager.load demoEnvBrokenWall "brokenwall.tmx" demoInit
      = Run.fault
        (Classes.GameMapManager.load demoEnvBrokenWall "brokenwall.tmx" demoInit).state ∧
    (Classes.GameMapManager.load demoEnvBrokenWall "brokenwall.tmx" demoInit).state._player
      = demoInit._player ∧
    (Classes.GameMapManager.load demoEnvBrokenWall "brokenwall.tmx"
      demoInit).state._world.bodies
      = demoInit._world.bodies ++ Classes.builtFor demoEnvBrokenWall "brokenwall.tmx" ∧
    (Classes.builtFor demoEnvBrokenWall "brokenwall.tmx").length = 3 :=
  ⟨by decide,
   ((Classes.load_fault_state demoEnvBrokenWall "brokenwall.tmx" demoInit).2.1 _
      (by decide)).1,
   ((Classes.load_fault_state demoEnvBrokenWall "brokenwall.tmx" demoInit).2.1 _
      (by decide)).2.2.2.2.2,
   by decide⟩

/-- Claim C10: for a map that parses and whose `Player` group has at least one object,
`spawnPlayer` builds the player at exactly the `(x, y)` of the first object of that group;
whenever `load` returns, that player is the manager's player, is among its characters, and
the map is the current map; and `load` returns on every such map in the level format for
the static layers. -/
theorem Classes.load_spawns_player [Add F] [Sub F] [Div F] [NatCast F] [DecidableEq F]
    (E : Classes.Env F) (file : String) (self : Classes.GameMapManager F)
    (map : TMXTiledMap F) (spawn : TMXObject F) (rest : List (TMXObject F))
    (hc : E.create file = some map)
    (hp : map.getObjectGroup "Player" = some (spawn :: rest)) :
    (∀ s : Classes.GameMapManager F, s._map = some map →
      s.spawnPlayer = some { name := "Aesophor", x := spawn.x, y := spawn.y }) ∧
    (∀ after, Classes.GameMapManager.load E file self = Run.done after →
      after._map = some map ∧
      after._player = some { name := "Aesophor", x := spawn.x, y := spawn.y } ∧
      Classes.Character.player { name := "Aesophor", x := spawn.x, y := spawn.y }
        ∈ after._characters) ∧
    (map.hasStaticLayers = true →
      ∃ after, Classes.GameMapManager.load E file self = Run.done after) := by
  refine ⟨?_, ?_, ?_⟩
  · intro s hs
    simp [Classes.GameMapManager.spawnPlayer, hs, hp]
  · intro after h
    cases hg : Classes.createStaticGeometry E map self._world with
    | fault world =>
      rw [Classes.load_geometry_fault E file self map world hc hg] at h
      cases h
    | done world =>
      obtain ⟨after2, h2, hm, _, hpl, hch, _⟩ :=
        Classes.load_done E file self map world spawn rest hc hg hp
      rw [h2] at h
      cases h
      exact ⟨hm, hpl, by simp [hch]⟩
  · intro hl
    obtain ⟨after, h2, _⟩ := Classes.load_done E file self map _ spawn rest hc
      ((Classes.createStaticGeometry_eq_done E map self._world _).2 ⟨hl, rfl⟩) hp
    exact ⟨after, h2⟩

/-- Witness for C10: `level1.tmx` parses to `demoLevel`, whose spawn point is `(64, 128)`;
the load returns and the player is built there. -/
theorem Classes.load_spawns_player_witness :
    demoEnv.create "level1.tmx" = some demoLevel ∧
    (Classes.GameMapManager.load demoEnv "level1.tmx" demoInit).state._player
      = some { name := "Aesophor", x := 64, y := 128 } :=
  ⟨by decide,
   ((Classes.load_spawns_player demoEnv "level1.tmx" demoInit demoLevel
      { x := 64, y := 128, width := 0, height := 0, polylinePoints := none } []
      (by decide) (by decide)).2.1 _ (by decide)).2.1⟩

/-! ### Input manager lemmas -/

/-- The five bindable keys are pairwise distinct. -/
theorem _kBindableKeys_injective :
    ∀ i j : Fin 5, _kBindableKeys i = _kBindableKeys j → i = j := by
  decide

/-- No bindable key is `KEY_NONE`. -/
theorem _kBindableKeys_ne_none : ∀ i : Fin 5, _kBindableKeys i ≠ KeyCode.KEY_NONE := by
  decide

/-- The loop finds a bindable key at its own index. -/
theorem InputManager.bindableIndex_key :
    ∀ i : Fin 5, InputManager.bindableIndex (_kBindableKeys i) = some i := by
  decide

/-- The index the loop finds holds the key looked for. -/
theorem InputManager.bindableIndex_some (keyCode : KeyCode) (i : Fin 5)
    (h : InputManager.bindableIndex keyCode = some i) : _kBindableKeys i = keyCode := by
  have := List.find?_some h
  exact (of_decide_eq_true this).symm

/-- The loop finds nothing exactly for the keys that are not bindable. -/
theorem InputManager.bindableIndex_none (keyCode : KeyCode) :
    InputManager.bindableIndex keyCode = none ↔ ∀ i : Fin 5, _kBindableKeys i ≠ keyCode := by
  constructor
  · intro h i hi
    rw [← hi, InputManager.bindableIndex_key] at h
    cases h
  · intro h
    cases hb : InputManager.bindableIndex keyCode with
    | none => rfl
    | some i => exact absurd (InputManager.bindableIndex_some keyCode i hb) (h i)

/-- `clearHotkeyAction` with a key that is not bindable changes nothing. -/
theorem InputManager.clearHotkeyAction_unbindable (self : InputManager) (keyCode : KeyCode)
    (h : ∀ i : Fin 5, _kBindableKeys i ≠ keyCode) :
    self.clearHotkeyAction keyCode = self := by
  unfold InputManager.clearHotkeyAction
  rw [(InputManager.bindableIndex_none keyCode).2 h]
  simp

/-- `clearHotkeyAction` with the bindable key of slot `i`, on an empty slot. -/
theorem InputManager.clearHotkeyAction_empty (self : InputManager) (i : Fin 5)
    (h : self._hotkeys i = none) :
    self.clearHotkeyAction (_kBindableKeys i) =
      { self with _hotkeys := Function.update self._hotkeys i none } := by
  unfold InputManager.clearHotkeyAction
  rw [InputManager.bindableIndex_key, if_neg (_kBindableKeys_ne_none i)]
  simp [h]

/-- `clearHotkeyAction` with the bindable key of slot `i`, on a slot holding `bound`. -/
theorem InputManager.clearHotkeyAction_bound (self : InputManager) (i : Fin 5)
    (bound : KeybindablePtr) (h : self._hotkeys i = some bound) :
    self.clearHotkeyAction (_kBindableKeys i) =
      { self with
        _hotkeys := Function.update self._hotkeys i none
        hotkey := Function.update self.hotkey bound KeyCode.KEY_NONE } := by
  unfold InputManager.clearHotkeyAction
  rw [InputManager.bindableIndex_key, if_neg (_kBindableKeys_ne_none i)]
  simp [h]

/-- Consistency follows from its parts (1) and (3): the bindable keys are distinct. -/
theorem InputManager.hotkeysConsistent_of (self : InputManager)
    (h1 : ∀ (i : Fin 5) (kb : KeybindablePtr),
      self._hotkeys i = some kb → self.hotkey kb = _kBindableKeys i)
    (h3 : ∀ kb : KeybindablePtr,
      (∀ i : Fin 5, self._hotkeys i ≠ some kb) → self.hotkey kb = KeyCode.KEY_NONE) :
    self.hotkeysConsistent := by
  refine ⟨h1, ?_, h3⟩
  intro i j kb hi hj
  exact _kBindableKeys_injective i j ((h1 i kb hi).symm.trans (h1 j kb hj))

/-- `clearHotkeyAction` only empties slots. -/
theorem InputManager.clearHotkeyAction_slots (self : InputManager) (keyCode : KeyCode)
    (j : Fin 5) (kb : KeybindablePtr)
    (h : (self.clearHotkeyAction keyCode)._hotkeys j = some kb) :
    self._hotkeys j = some kb := by
  by_cases hb : ∃ i, _kBindableKeys i = keyCode
  · obtain ⟨i, rfl⟩ := hb
    cases hs : self._hotkeys i with
    | none =>
      rw [InputManager.clearHotkeyAction_empty self i hs] at h
      by_cases hji : j = i
      · subst hji; simp at h
      · simpa [Function.update_noteq hji] using h
    | some bound =>
      rw [InputManager.clearHotkeyAction_bound self i bound hs] at h
      by_cases hji : j = i
      · subst hji; simp at h
      · simpa [Function.update_noteq hji] using h
  · rw [InputManager.clearHotkeyAction_unbindable self keyCode
      (fun i hi => hb ⟨i, hi⟩)] at h
    exact h

/-- `clearHotkeyAction` with the key of slot `i` leaves slot `i` empty. -/
theorem InputManager.clearHotkeyAction_slot (self : InputManager) (i : Fin 5) :
    (self.clearHotkeyAction (_kBindableKeys i))._hotkeys i = none := by
  cases hs : self._hotkeys i with
  | none => rw [InputManager.clearHotkeyAction_empty self i hs]; simp
  | some bound => rw [InputManager.clearHotkeyAction_bound self i bound hs]; simp

/-- `clearHotkeyAction` preserves hotkey-table consistency. -/
theorem InputManager.clearHotkeyAction_consistent (self : InputManager) (keyCode : KeyCode)
    (h : self.hotkeysConsistent) : (self.clearHotkeyAction keyCode).hotkeysConsistent := by
  obtain ⟨h1, h2, h3⟩ := h
  by_cases hb : ∃ i, _kBindableKeys i = keyCode
  · obtain ⟨i, rfl⟩ := hb
    cases hs : self._hotkeys i with
    | none =>
      rw [InputManager.clearHotkeyAction_empty self i hs]
      apply InputManager.hotkeysConsistent_of
      · intro j kb hj
        by_cases hji : j = i
        · subst hji; simp at hj
        · simp only [Function.update_noteq hji] at hj
          exact h1 j kb hj
      · intro kb hfree
        apply h3 kb
        intro j hj
        by_cases hji : j = i
        · subst hji; rw [hs] at hj; cases hj
        · exact hfree j (by simpa [Function.update_noteq hji] using hj)
    | some bound =>
      rw [InputManager.clearHotkeyAction_bound self i bound hs]
      apply InputManager.hotkeysConsistent_of
      · intro j kb hj
        by_cases hji : j = i
        · subst hji; simp at hj
        · simp only [Function.update_noteq hji] at hj
          have hne : kb ≠ bound := by
            rintro rfl
            exact hji (h2 j i kb hj hs)
          simp only [Function.update_noteq hne]
          exact h1 j kb hj
      · intro kb hfree
        by_cases hkb : kb = bound
        · subst hkb; simp
        · simp only [Function.update_noteq hkb]
          apply h3 kb
          intro j hj
          by_cases hji : j = i
          · subst hji; rw [hs] at hj; exact hkb (Option.some.inj hj).symm
          · exact hfree j (by simpa [Function.update_noteq hji] using hj)
  · rw [InputManager.clearHotkeyAction_unbindable self keyCode (fun i hi => hb ⟨i, hi⟩)]
    exact ⟨h1, h2, h3⟩

/-- Clearing a keybindable's own hotkey removes it from the table. -/
theorem InputManager.clearHotkeyAction_own (self : InputManager) (kb : KeybindablePtr)
    (h : self.hotkeysConsistent) (j : Fin 5) :
    (self.clearHotkeyAction (self.hotkey kb))._hotkeys j ≠ some kb := by
  intro hj
  have hold := InputManager.clearHotkeyAction_slots self _ j kb hj
  have hkey := h.1 j kb hold
  rw [hkey, InputManager.clearHotkeyAction_slot] at hj
  cases hj

/-- Binding a keybindable that is in no slot to an empty slot preserves consistency. -/
theorem InputManager.bind_consistent (self : InputManager) (i : Fin 5) (kb : KeybindablePtr)
    (h : self.hotkeysConsistent) (hfree : ∀ j : Fin 5, self._hotkeys j ≠ some kb)
    (hempty : self._hotkeys i = none) :
    InputManager.hotkeysConsistent
      { self with
        _hotkeys := Function.update self._hotkeys i (some kb)
        hotkey := Function.update self.hotkey kb (_kBindableKeys i) } := by
  obtain ⟨h1, _, h3⟩ := h
  apply InputManager.hotkeysConsistent_of
  · intro j x hj
    by_cases hji : j = i
    · subst hji
      simp only [Function.update_same, Option.some.injEq] at hj
      subst hj
      simp
    · simp only [Function.update_noteq hji] at hj
      have hx : x ≠ kb := by
        rintro rfl
        exact hfree j hj
      simp only [Function.update_noteq hx]
      exact h1 j x hj
  · intro x hx
    have hxkb : x ≠ kb := by
      rintro rfl
      exact hx i (by simp)
    simp only [Function.update_noteq hxkb]
    apply h3 x
    intro j hj
    by_cases hji : j = i
    · subst hji; rw [hempty] at hj; cases hj
    · exact hx j (by simpa [Function.update_noteq hji] using hj)

/-- `setHotkeyAction` with a key that is not bindable changes nothing, whatever the
keybindable. -/
theorem InputManager.setHotkeyAction_unbindable (self : InputManager) (keyCode : KeyCode)
    (keybindable : Option KeybindablePtr) (h : ∀ i : Fin 5, _kBindableKeys i ≠ keyCode) :
    self.setHotkeyAction keyCode keybindable = some self := by
  unfold InputManager.setHotkeyAction
  rw [(InputManager.bindableIndex_none keyCode).2 h]

/-- `setHotkeyAction` with a non-null keybindable returns and preserves consistency; with
the bindable key of slot `i` the keybindable ends in slot `i`. -/
theorem InputManager.setHotkeyAction_consistent (self : InputManager) (keyCode : KeyCode)
    (kb : KeybindablePtr) (h : self.hotkeysConsistent) :
    ∃ after, self.setHotkeyAction keyCode (some kb) = some after ∧
      after.hotkeysConsistent ∧
      ∀ i : Fin 5, _kBindableKeys i = keyCode → after._hotkeys i = some kb := by
  cases hb : InputManager.bindableIndex keyCode with
  | none =>
    refine ⟨self, by simp [InputManager.setHotkeyAction, hb], h, ?_⟩
    intro i hi
    exact absurd hi ((InputManager.bindableIndex_none keyCode).1 hb i)
  | some i =>
    have hkey := InputManager.bindableIndex_some keyCode i hb
    subst hkey
    have hc1 := InputManager.clearHotkeyAction_consistent self (self.hotkey kb) h
    have hf1 := InputManager.clearHotkeyAction_own self kb h
    have hidx : ∀ j : Fin 5, _kBindableKeys j = _kBindableKeys i →
        ∀ f : Fin 5 → Option KeybindablePtr, Function.update f i (some kb) j = some kb := by
      intro j hj f
      rw [_kBindableKeys_injective j i hj]
      simp
    cases hs : (self.clearHotkeyAction (self.hotkey kb))._hotkeys i with
    | none =>
      refine ⟨_, by simp only [InputManager.setHotkeyAction, hb, hs]; rfl, ?_, ?_⟩
      · exact InputManager.bind_consistent _ i kb hc1 hf1 hs
      · intro j hj
        exact hidx j hj _
    | some bound =>
      have hbk := hc1.1 i bound hs
      refine ⟨_, by simp only [InputManager.setHotkeyAction, hb, hs]; rfl, ?_, ?_⟩
      · rw [hbk]
        refine InputManager.bind_consistent _ i kb
          (InputManager.clearHotkeyAction_consistent _ _ hc1) ?_
          (InputManager.clearHotkeyAction_slot _ i)
        intro j hj
        exact hf1 j (InputManager.clearHotkeyAction_slots _ _ j kb hj)
      · intro j hj
        exact hidx j hj _

/-- Every sequence of hotkey calls returns and preserves consistency. -/
theorem InputManager.runHotkeyCalls_consistent (calls : List InputManager.HotkeyCall)
    (self : InputManager) (h : self.hotkeysConsistent) :
    ∃ after, InputManager.runHotkeyCalls calls self = some after ∧
      after.hotkeysConsistent := by
  induction calls generalizing self with
  | nil => exact ⟨self, rfl, h⟩
  | cons call rest ih =>
    cases call with
    | setHotkeyAction keyCode kb =>
      obtain ⟨mid, hmid, hcons, _⟩ :=
        InputManager.setHotkeyAction_consistent self keyCode kb h
      obtain ⟨after, hafter, hc⟩ := ih mid hcons
      exact ⟨after, by simp only [InputManager.runHotkeyCalls, hmid, hafter], hc⟩
    | clearHotkeyAction keyCode =>
      obtain ⟨after, hafter, hc⟩ :=
        ih _ (InputManager.clearHotkeyAction_consistent self keyCode h)
      exact ⟨after, by simp only [InputManager.runHotkeyCalls, hafter], hc⟩

/-! ### Claims C12 and C14 -/

/-- Claim C12: starting from an empty hotkey table with every keybindable's hotkey
`KEY_NONE`, every sequence of `setHotkeyAction(key, non-null keybindable)` and
`clearHotkeyAction(key)` calls returns, and afterwards (1) a keybindable held by slot `i` has
the hotkey `_kBindableKeys[i]`, (2) a keybindable occupies at most one slot, (3) a
keybindable held by no slot has the hotkey `KEY_NONE`.  In any state, `setHotkeyAction` with
a key that is not one of the five bindable keys changes nothing. -/
theorem InputManager.hotkeys_invariant (start : InputManager)
    (calls : List InputManager.HotkeyCall)
    (hempty : ∀ i : Fin 5, start._hotkeys i = none)
    (hnone : ∀ kb : KeybindablePtr, start.hotkey kb = KeyCode.KEY_NONE) :
    (∃ after, InputManager.runHotkeyCalls calls start = some after ∧
      (∀ (i : Fin 5) (kb : KeybindablePtr),
        after._hotkeys i = some kb → after.hotkey kb = _kBindableKeys i) ∧
      (∀ (i j : Fin 5) (kb : KeybindablePtr),
        after._hotkeys i = some kb → after._hotkeys j = some kb → i = j) ∧
      (∀ kb : KeybindablePtr,
        (∀ i : Fin 5, after._hotkeys i ≠ some kb) → after.hotkey kb = KeyCode.KEY_NONE)) ∧
    (∀ (self : InputManager) (keyCode : KeyCode) (kb : KeybindablePtr),
      (∀ i : Fin 5, _kBindableKeys i ≠ keyCode) →
        self.setHotkeyAction keyCode (some kb) = some self) := by
  constructor
  · have h0 : start.hotkeysConsistent := by
      apply InputManager.hotkeysConsistent_of
      · intro i kb hi
        rw [hempty i] at hi
        cases hi
      · intro kb _
        exact hnone kb
    exact InputManager.runHotkeyCalls_consistent calls start h0
  · intro self keyCode kb h
    exact InputManager.setHotkeyAction_unbindable self keyCode (some kb) h

/-- Witness for C12: the calls `demoHotkeyCalls` on a fresh input manager return, leaving
keybindable 2 in slot 4 with hotkey V. -/
theorem InputManager.hotkeys_invariant_witness :
    (∀ kb : KeybindablePtr,
      (InputManager.new fun _ => KeyCode.KEY_NONE).hotkey kb = KeyCode.KEY_NONE) ∧
    (∃ after, InputManager.runHotkeyCalls demoHotkeyCalls
        (InputManager.new fun _ => KeyCode.KEY_NONE) = some after ∧
      (∀ (i : Fin 5) (kb : KeybindablePtr),
        after._hotkeys i = some kb → after.hotkey kb = _kBindableKeys i)) ∧
    ((InputManager.runHotkeyCalls demoHotkeyCalls
        (InputManager.new fun _ => KeyCode.KEY_NONE)).map fun after =>
          (after._hotkeys 4, after.hotkey 2)) = some (some 2, KeyCode.KEY_V) :=
  ⟨fun _ => rfl,
   (InputManager.hotkeys_invariant (InputManager.new fun _ => KeyCode.KEY_NONE)
      demoHotkeyCalls (fun _ => rfl) (fun _ => rfl)).1.imp
     (fun _ h => ⟨h.1, h.2.1⟩),
   by decide⟩

/-- Claim C14: `isKeyJustPressed(k)` returns true exactly when `k` is in the pressed-key
set, that is exactly when `isKeyPressed(k)` was true; afterwards `k` is not in the set,
`isKeyPressed(k)` is false, membership of every other key and every other field are
unchanged; hence a second call for the same key right after returns false, so two
consecutive calls never both return true. -/
theorem InputManager.isKeyJustPressed_consumes (self : InputManager) (k : KeyCode) :
    ((self.isKeyJustPressed k).1 = true ↔ k ∈ self._pressedKeys) ∧
    (self.isKeyJustPressed k).1 = self.isKeyPressed k ∧
    k ∉ (self.isKeyJustPressed k).2._pressedKeys ∧
    (self.isKeyJustPressed k).2.isKeyPressed k = false ∧
    (∀ key : KeyCode, key ≠ k →
      ((self.isKeyJustPressed k).2.isKeyPressed key = self.isKeyPressed key)) ∧
    (self.isKeyJustPressed k).2 = { self with _pressedKeys := self._pressedKeys.erase k } ∧
    ((self.isKeyJustPressed k).2.isKeyJustPressed k).1 = false ∧
    ¬ ((self.isKeyJustPressed k).1 = true ∧
      ((self.isKeyJustPressed k).2.isKeyJustPressed k).1 = true) := by
  have hsecond : ((self.isKeyJustPressed k).2.isKeyJustPressed k).1 = false := by
    simp [InputManager.isKeyJustPressed]
  refine ⟨?_, ?_, ?_, ?_, ?_, rfl, hsecond, ?_⟩
  · by_cases h : k ∈ self._pressedKeys <;> simp [InputManager.isKeyJustPressed, h]
  · by_cases h : k ∈ self._pressedKeys <;>
      simp [InputManager.isKeyJustPressed, InputManager.isKeyPressed, h]
  · simp [InputManager.isKeyJustPressed]
  · simp [InputManager.isKeyJustPressed, InputManager.isKeyPressed]
  · intro key hkey
    simp [InputManager.isKeyJustPressed, InputManager.isKeyPressed, hkey]
  · rw [hsecond]
    simp

/-- Witness for C14: with X and C pressed, `isKeyJustPressed(X)` is true, then false, and
C stays pressed. -/
theorem InputManager.isKeyJustPressed_consumes_witness :
    (demoInput.isKeyJustPressed KeyCode.KEY_X).1 = true ∧
    ((demoInput.isKeyJustPressed KeyCode.KEY_X).2.isKeyJustPressed KeyCode.KEY_X).1 = false ∧
    (demoInput.isKeyJustPressed KeyCode.KEY_X).2.isKeyPressed KeyCode.KEY_C = true :=
  ⟨(InputManager.isKeyJustPressed_consumes demoInput KeyCode.KEY_X).1.2 (by decide),
   (InputManager.isKeyJustPressed_consumes demoInput KeyCode.KEY_X).2.2.2.2.2.2.1,
   ((InputManager.isKeyJustPressed_consumes demoInput KeyCode.KEY_X).2.2.2.2.1
      KeyCode.KEY_C (by decide)).trans (by decide)⟩

/-! ### Chest interaction lemmas -/

/-- The loop of `onInteract` on a chest whose body is in the world: it returns, having made
exactly the calls of `Chest.itemCalls` after the earlier ones and added what they show to
the world and to the layer. -/
theorem Chest.createItems_eq [Mul F] (K : Constants F) (GetPosition : b2Body F → F × F)
    (createItem : CreateItemCall F → List (b2Body F) × List (Sprite × Int))
    (handle : Nat) (body : b2Body F) (itemJsons : List String) (s : Play F)
    (hbody : s.stage.world.bodies[handle]? = some body) :
    Chest.createItems K GetPosition createItem (some handle) itemJsons s
      = Run.done
        { stage :=
            { world := { bodies := s.stage.world.bodies ++
                (Chest.itemsShown createItem
                  (Chest.itemCalls K GetPosition body itemJsons)).1 }
              layer := s.stage.layer ++
                (Chest.itemsShown createItem
                  (Chest.itemCalls K GetPosition body itemJsons)).2
              chests := s.stage.chests }
          bodySpriteChild := s.bodySpriteChild
          createItemCalls := s.createItemCalls ++
            Chest.itemCalls K GetPosition body itemJsons } := by
  induction itemJsons generalizing s with
  | nil => simp [Chest.createItems, Chest.itemCalls, Chest.itemsShown]
  | cons item rest ih =>
    have hlt : handle < s.stage.world.bodies.length := by
      by_contra hge
      rw [List.getElem?_eq_none (Nat.le_of_not_lt hge)] at hbody
      cases hbody
    simp only [Chest.createItems, Option.bind, hbody]
    rw [ih]
    · simp [Chest.itemCalls, Chest.itemsShown]
    · simp only
      rw [List.getElem?_append_left hlt]
      exact hbody

/-- `onInteract` on an opened chest returns at once, changing nothing. -/
theorem Chest.onInteract_opened [Mul F] (K : Constants F) (GetPosition : b2Body F → F × F)
    (createItem : CreateItemCall F → List (b2Body F) × List (Sprite × Int))
    (this : ActorPtr) (s : Play F) (h : (s.stage.chests this)._isOpened = true) :
    Chest.onInteract K GetPosition createItem this s = Run.done s := by
  simp [Chest.onInteract, h]

/-- Any number of `onInteract` calls on an opened chest changes nothing. -/
theorem Chest.onInteractTimes_opened [Mul F] (K : Constants F)
    (GetPosition : b2Body F → F × F)
    (createItem : CreateItemCall F → List (b2Body F) × List (Sprite × Int))
    (this : ActorPtr) (s : Play F)
    (h : (s.stage.chests this)._isOpened = true) (n : Nat) :
    Chest.onInteractTimes K GetPosition createItem this n s = Run.done s := by
  induction n with
  | zero => rfl
  | succ n ih =>
    simp only [Chest.onInteractTimes,
      Chest.onInteract_opened K GetPosition createItem this s h, Run.bind, ih]

/-- The loop of `onInteract` leaves the chest objects as they are, returned or stopped. -/
theorem Chest.createItems_chests [Mul F] (K : Constants F) (GetPosition : b2Body F → F × F)
    (createItem : CreateItemCall F → List (b2Body F) × List (Sprite × Int))
    (_body : Option Nat) (itemJsons : List String) (s : Play F) :
    (Chest.createItems K GetPosition createItem _body itemJsons s).state.stage.chests
      = s.stage.chests := by
  induction itemJsons generalizing s with
  | nil => rfl
  | cons item rest ih =>
    simp only [Chest.createItems]
    cases _body.bind fun handle => s.stage.world.bodies[handle]? with
    | none => rfl
    | some body => simp only [ih]

/-- Whenever `onInteract` returns, the chest is opened. -/
theorem Chest.onInteract_done_opened [Mul F] (K : Constants F)
    (GetPosition : b2Body F → F × F)
    (createItem : CreateItemCall F → List (b2Body F) × List (Sprite × Int))
    (this : ActorPtr) (s after : Play F)
    (h : Chest.onInteract K GetPosition createItem this s = Run.done after) :
    (after.stage.chests this)._isOpened = true := by
  unfold Chest.onInteract at h
  cases ho : (s.stage.chests this)._isOpened with
  | true =>
    simp only [ho, if_true, Run.done.injEq] at h
    rw [← h]
    exact ho
  | false =>
    simp only [ho] at h
    cases hsp : (s.stage.chests this)._bodySprite with
    | none => simp [hsp] at h
    | some sprite =>
      simp only [hsp, Bool.false_eq_true, if_false] at h
      generalize hrun : Chest.createItems K GetPosition createItem _ _ _ = run at h
      have hch := Chest.createItems_chests K GetPosition createItem
        (s.stage.chests this)._body (s.stage.chests this)._itemJsons
        { s with stage :=
          { s.stage with
            layer := Chest.retexture s.stage.layer (s.bodySpriteChild this)
            chests := (Function.update s.stage.chests this
              { s.stage.chests this with
                _isOpened := true
                _bodySprite := some Chest.openSprite }) } }
      rw [hrun] at hch
      cases run with
      | fault stopped => simp at h
      | done mid =>
        simp only [Run.done.injEq] at h
        simp only [Run.state] at hch
        rw [← h]
        simp [hch]

/-- The first `onInteract` on a closed chest that has a sprite and a body in the world. -/
theorem Chest.onInteract_closed [Mul F] (K : Constants F) (GetPosition : b2Body F → F × F)
    (createItem : CreateItemCall F → List (b2Body F) × List (Sprite × Int))
    (this : ActorPtr) (s : Play F) (sprite : Sprite) (handle : Nat) (body : b2Body F)
    (hclosed : (s.stage.chests this)._isOpened = false)
    (hsprite : (s.stage.chests this)._bodySprite = some sprite)
    (hhandle : (s.stage.chests this)._body = some handle)
    (hbody : s.stage.world.bodies[handle]? = some body) :
    Chest.onInteract K GetPosition createItem this s = Run.done
      { stage :=
          { world := { bodies := s.stage.world.bodies ++
              (Chest.itemsShown createItem
                (Chest.itemCalls K GetPosition body (s.stage.chests this)._itemJsons)).1 }
            layer := Chest.retexture s.stage.layer (s.bodySpriteChild this) ++
              (Chest.itemsShown createItem
                (Chest.itemCalls K GetPosition body (s.stage.chests this)._itemJsons)).2
            chests := (Function.update s.stage.chests this
              { s.stage.chests this with
                _isOpened := true
                _bodySprite := some Chest.openSprite
                _itemJsons := [] }) }
        bodySpriteChild := s.bodySpriteChild
        createItemCalls := s.createItemCalls ++
          Chest.itemCalls K GetPosition body (s.stage.chests this)._itemJsons } := by
  unfold Chest.onInteract
  simp only [hclosed, hsprite, hhandle, Bool.false_eq_true, if_false]
  rw [Chest.createItems_eq K GetPosition createItem handle body]
  · simp [hhandle]
  · exact hbody

/-- Retexturing changes the designated child to the open-chest sprite, keeping its
z-order. -/
theorem Chest.retexture_child (layer : List (Sprite × Int)) (i : Nat) (old : Sprite × Int)
    (h : layer[i]? = some old) :
    (Chest.retexture layer (some i))[i]? = some (Chest.openSprite, old.2) := by
  have hlt : i < layer.length := by
    by_contra hge
    rw [List.getElem?_eq_none (Nat.le_of_not_lt hge)] at h
    cases h
  simp [Chest.retexture, h, hlt]

/-- The stage of `demoPlay`: the chest at address 7 is closed, has its sprite, which is
child 0 of the layer, and the body with handle 0. -/
theorem demoPlay_chest :
    (demoPlay.stage.chests 7)._isOpened = false ∧
    (demoPlay.stage.chests 7)._bodySprite = some Chest.closedSprite ∧
    (demoPlay.stage.chests 7)._body = some 0 ∧
    demoPlay.stage.world.bodies[0]? = some (Chest.bodyFor demoConstants 7
      b2BodyType.b2_dynamicBody 64 128 (ITEM_CATEGORY_BITS demoConstants)
      (ITEM_MASK_BITS demoConstants)) ∧
    (demoPlay.stage.chests 7)._itemJsons
      = ["Resources/Database/item/a.json", "Resources/Database/item/b.json"] ∧
    demoPlay.bodySpriteChild 7 = some 0 ∧
    demoPlay.stage.layer[0]? = some (Chest.closedSprite, 3) := by
  have h := Chest.showOnMap_hidden demoConstants 7 64 128 demoStage rfl
  simp only [demoPlay, Chest.showOnMapIn, h]
  simp [demoStage, demoChest, demoConstants]

/-! ### Claim C13 -/

/-- Claim C13: chest loot is released at most once.  A chest is constructed closed, with
the item descriptors its constructor splits.  The first `onInteract` on a closed chest that
is on the map (it has its sprite and its body) returns, having called `createItem` exactly
once per item descriptor, in the authored order, at the body's position.  Afterwards the
chest is opened, its descriptor list is empty and its sprite carries the open-chest
texture, also as child of the layer; the world and the layer hold in addition what the
`createItem` calls have shown, in order; no other chest has changed.  Every later
`onInteract` is a no-op: whenever a call has returned, the chest is opened and any number
of further calls create no item and change no state. -/
theorem Chest.onInteract_once [Mul F] (K : Constants F) (GetPosition : b2Body F → F × F)
    (createItem : CreateItemCall F → List (b2Body F) × List (Sprite × Int))
    (this : ActorPtr) (s : Play F) :
    (∀ (split : String → List String) (itemJsons : String),
      (Chest.new split itemJsons)._isOpened = false ∧
      (Chest.new split itemJsons)._itemJsons = split itemJsons) ∧
    (∀ (sprite : Sprite) (handle : Nat) (body : b2Body F),
      (s.stage.chests this)._isOpened = false →
      (s.stage.chests this)._bodySprite = some sprite →
      (s.stage.chests this)._body = some handle →
      s.stage.world.bodies[handle]? = some body →
      ∃ first : Play F,
        Chest.onInteract K GetPosition createItem this s = Run.done first ∧
        first.createItemCalls = s.createItemCalls ++
          Chest.itemCalls K GetPosition body (s.stage.chests this)._itemJsons ∧
        (Chest.itemCalls K GetPosition body (s.stage.chests this)._itemJsons).map
          (fun call => call.itemJson) = (s.stage.chests this)._itemJsons ∧
        (∀ call ∈ Chest.itemCalls K GetPosition body (s.stage.chests this)._itemJsons,
          call.x = (GetPosition body).1 * K.kPpm ∧ call.y = (GetPosition body).2 * K.kPpm ∧
          call.amount = 1) ∧
        first.stage.chests this =
          { s.stage.chests this with
            _isOpened := true
            _bodySprite := some Chest.openSprite
            _itemJsons := [] } ∧
        first.stage.world.bodies = s.stage.world.bodies ++
          (Chest.itemsShown createItem
            (Chest.itemCalls K GetPosition body (s.stage.chests this)._itemJsons)).1 ∧
        first.stage.layer = Chest.retexture s.stage.layer (s.bodySpriteChild this) ++
          (Chest.itemsShown createItem
            (Chest.itemCalls K GetPosition body (s.stage.chests this)._itemJsons)).2 ∧
        (∀ (i : Nat) (old : Sprite × Int), s.bodySpriteChild this = some i →
          s.stage.layer[i]? = some old →
          first.stage.layer[i]? = some (Chest.openSprite, old.2)) ∧
        first.bodySpriteChild = s.bodySpriteChild ∧
        (∀ other : ActorPtr, other ≠ this →
          first.stage.chests other = s.stage.chests other) ∧
        (∀ n : Nat,
          Chest.onInteractTimes K GetPosition createItem this (n + 1) s = Run.done first)) ∧
    (∀ after : Play F, Chest.onInteract K GetPosition createItem this s = Run.done after →
      (after.stage.chests this)._isOpened = true ∧
      ∀ n : Nat,
        Chest.onInteractTimes K GetPosition createItem this n after = Run.done after) := by
  refine ⟨fun _ _ => ⟨rfl, rfl⟩, ?_, ?_⟩
  · intro sprite handle body hclosed hsprite hhandle hbody
    have hfirst := Chest.onInteract_closed K GetPosition createItem this s sprite handle body
      hclosed hsprite hhandle hbody
    refine ⟨_, hfirst, rfl, ?_, ?_, by simp, rfl, rfl, ?_, rfl, ?_, ?_⟩
    · simp [Chest.itemCalls, Function.comp_def]
    · intro call hcall
      simp only [Chest.itemCalls, List.mem_map] at hcall
      obtain ⟨item, _, rfl⟩ := hcall
      exact ⟨rfl, rfl, rfl⟩
    · intro i old hi hold
      have hlt : i < (Chest.retexture s.stage.layer (some i)).length := by
        by_contra hge
        have := Chest.retexture_child s.stage.layer i old hold
        rw [List.getElem?_eq_none (Nat.le_of_not_lt hge)] at this
        cases this
      simp only [hi]
      rw [List.getElem?_append_left hlt]
      exact Chest.retexture_child s.stage.layer i old hold
    · intro other hother
      simp [Function.update_noteq hother]
    · intro n
      simp only [Chest.onInteractTimes, hfirst, Run.bind]
      exact Chest.onInteractTimes_opened K GetPosition createItem this _ (by simp) n
  · intro after hafter
    have hopened :=
      Chest.onInteract_done_opened K GetPosition createItem this s after hafter
    exact ⟨hopened,
      Chest.onInteractTimes_opened K GetPosition createItem this after hopened⟩

/-- Witness for C13: the chest of `demoPlay`, shown at `(64, 128)` with two item
descriptors; three calls of `onInteract` make two `createItem` calls in all, and child 0
of the layer carries the open-chest texture. -/
theorem Chest.onInteract_once_witness :
    (demoPlay.stage.chests 7)._isOpened = false ∧
    ∃ first : Play Int,
      Chest.onInteract demoConstants demoGetPosition demoCreateItem 7 demoPlay
        = Run.done first ∧
      first.createItemCalls.length = 2 ∧
      first.stage.layer[0]? = some (Chest.openSprite, 3) ∧
      Chest.onInteractTimes demoConstants demoGetPosition demoCreateItem 7 3 demoPlay
        = Run.done first :=
  ⟨demoPlay_chest.1,
   ((Chest.onInteract_once demoConstants demoGetPosition demoCreateItem 7 demoPlay).2.1
      _ _ _ demoPlay_chest.1 demoPlay_chest.2.1 demoPlay_chest.2.2.1
      demoPlay_chest.2.2.2.1).imp
     (fun _ h =>
       ⟨h.1, by rw [h.2.1, demoPlay_chest.2.2.2.2.1]; rfl,
        h.2.2.2.2.2.2.2.1 0 (Chest.closedSprite, 3) demoPlay_chest.2.2.2.2.2.1
          demoPlay_chest.2.2.2.2.2.2,
        h.2.2.2.2.2.2.2.2.2.2 2⟩)⟩

/-! ### Claim C11 -/

/-- The worker fails exactly when the file cannot be parsed or the parsed map has no
spawn point. -/
theorem GameMapManager.workerResult_none (parse : String → Option (TMXTiledMap F))
    (tmxMapFileName : String) :
    GameMapManager.workerResult parse tmxMapFileName = none ↔
      ∀ map, parse tmxMapFileName = some map → map.hasSpawnPoint = false := by
  unfold GameMapManager.workerResult TMXTiledMap.hasSpawnPoint
  cases parse tmxMapFileName with
  | none => simp
  | some map =>
    cases hp : map.getObjectGroup "Player" with
    | none => simp [hp]
    | some objects => cases objects <;> simp [hp]

/-- Claim C11: for every call `loadGameMap(tmxMapFileName, afterLoadingGameMap)` run to
completion, the events of the call follow the earlier ones, and: when loading succeeds the
callback is invoked exactly once, as the last event, after the old map (if any) was torn
down by `deleteObjects` and the new map was installed, which is then the active map; when
loading fails (the file cannot be parsed or the spawn point is missing) the callback is
not invoked, the error is reported and the active map is unchanged. -/
theorem GameMapManager.loadGameMap_callback (parse : String → Option (TMXTiledMap F))
    (self : GameMapManager F) (tmxMapFileName : String) (cb : Nat) :
    ∃ new : List (LoadEvent F),
      (self.loadGameMap parse tmxMapFileName (some cb)).events = self.events ++ new ∧
      (∀ (map : TMXTiledMap F) (x y : F),
        GameMapManager.workerResult parse tmxMapFileName = some (map, x, y) →
        ∃ pre : List (LoadEvent F),
          new = pre ++ [LoadEvent.afterLoaded cb] ∧
          pre.countP LoadEvent.isCallback = 0 ∧
          new.countP LoadEvent.isCallback = 1 ∧
          LoadEvent.installed tmxMapFileName ∈ pre ∧
          (∀ old, self._gameMap = some old → LoadEvent.deleteObjects old.1 ∈ pre) ∧
          (self.loadGameMap parse tmxMapFileName (some cb))._gameMap
            = some (tmxMapFileName, map)) ∧
      (GameMapManager.workerResult parse tmxMapFileName = none →
        new.countP LoadEvent.isCallback = 0 ∧
        LoadEvent.errorReported tmxMapFileName ∈ new ∧
        (self.loadGameMap parse tmxMapFileName (some cb))._gameMap = self._gameMap) := by
  cases hw : GameMapManager.workerResult parse tmxMapFileName with
  | none =>
    refine ⟨[LoadEvent.callbacksDrained, LoadEvent.workerDispatched tmxMapFileName,
      LoadEvent.errorReported tmxMapFileName], ?_, ?_, ?_⟩
    · simp [GameMapManager.loadGameMap, hw]
    · intro map x y h
      cases h
    · intro _
      exact ⟨by simp [List.countP_cons, LoadEvent.isCallback], by simp,
        by simp [GameMapManager.loadGameMap, hw]⟩
  | some result =>
    obtain ⟨map, x, y⟩ := result
    cases hold : self._gameMap with
    | none =>
      refine ⟨[LoadEvent.callbacksDrained, LoadEvent.workerDispatched tmxMapFileName,
        LoadEvent.installed tmxMapFileName, LoadEvent.playerShown x y,
        LoadEvent.afterLoaded cb], ?_, ?_, ?_⟩
      · simp [GameMapManager.loadGameMap, hw, hold]
      · intro map2 x2 y2 h
        simp only [Option.some.injEq, Prod.mk.injEq] at h
        obtain ⟨rfl, rfl, rfl⟩ := h
        refine ⟨[LoadEvent.callbacksDrained, LoadEvent.workerDispatched tmxMapFileName,
          LoadEvent.installed tmxMapFileName, LoadEvent.playerShown x y], by simp,
          by simp [List.countP_cons, LoadEvent.isCallback],
          by simp [List.countP_cons, LoadEvent.isCallback], by simp, ?_, ?_⟩
        · intro old ho
          cases ho
        · simp [GameMapManager.loadGameMap, hw]
      · intro h
        cases h
    | some old =>
      refine ⟨[LoadEvent.callbacksDrained, LoadEvent.workerDispatched tmxMapFileName,
        LoadEvent.deleteObjects old.1, LoadEvent.installed tmxMapFileName,
        LoadEvent.playerShown x y, LoadEvent.afterLoaded cb], ?_, ?_, ?_⟩
      · simp [GameMapManager.loadGameMap, hw, hold]
      · intro map2 x2 y2 h
        simp only [Option.some.injEq, Prod.mk.injEq] at h
        obtain ⟨rfl, rfl, rfl⟩ := h
        refine ⟨[LoadEvent.callbacksDrained, LoadEvent.workerDispatched tmxMapFileName,
          LoadEvent.deleteObjects old.1, LoadEvent.installed tmxMapFileName,
          LoadEvent.playerShown x y], by simp,
          by simp [List.countP_cons, LoadEvent.isCallback],
          by simp [List.countP_cons, LoadEvent.isCallback], by simp, ?_, ?_⟩
        · intro old2 ho
          cases ho
          simp
        · simp [GameMapManager.loadGameMap, hw]
      · intro h
        cases h

/-- Witness for C11: with `level1.tmx` active, loading `level1.tmx` again succeeds and the
callback 9 is the last of the six events; loading `missing.tmx` fails. -/
theorem GameMapManager.loadGameMap_callback_witness :
    GameMapManager.workerResult demoEnv.create "level1.tmx" = some (demoLevel, 64, 128) ∧
    GameMapManager.workerResult demoEnv.create "missing.tmx" = none ∧
    (∃ new : List (LoadEvent Int),
      (demoManager.loadGameMap demoEnv.create "level1.tmx" (some 9)).events
        = demoManager.events ++ new ∧
      ∃ pre, new = pre ++ [LoadEvent.afterLoaded 9]) ∧
    (demoManager.loadGameMap demoEnv.create "level1.tmx" (some 9)).events.length = 6 :=
  ⟨by decide, by decide,
   (GameMapManager.loadGameMap_callback demoEnv.create demoManager "level1.tmx" 9).imp
     (fun _ h => ⟨h.1, (h.2.1 demoLevel 64 128 (by decide)).imp (fun _ hp => hp.1)⟩),
   by decide⟩

end vigilante
